import Mathlib

/-!
# gobox: observability interceptors for a relational and a key-value client

A shallow embedding of `gormbox` (file `gorm/interceptor.go`, `gormbox/gorm.go`,
`gormbox/build.go`) and `redisbox` (`redisbox/interceptor.go`, `redisbox/redis.go`,
`redisbox/build.go`).

Go state is made explicit:

* a `context.Context` is the chain of `context.WithValue` frames (`Ctx`);
* everything the observers do to the outside (tracer, logger, metric vectors) is
  appended, in program order, to one list of `Event`s held by the `World`,
  next to the clock read by `time.Now`;
* a gorm handler `func(*gorm.DB)` is a function on the pair of the `*gorm.DB`
  it mutates and the `World`.
-/

namespace Gobox

/-! ## Go values shared by both packages -/

/-- Go `error` values. `redisNil` is the sentinel `redis.Nil`; every other error is
some value with its message (a value different from the sentinel even when its
message is the same). -/
inductive GoError where
  | redisNil
  | other (msg : String)
  deriving DecidableEq, Repr

/-- The method `err.Error()`. -/
def GoError.Error : GoError → String
  | .redisNil => "redis: nil"
  | .other msg => msg

/-- A `trace.SpanContext`: trace identifier and span identifier (the zero value of
each is the invalid, all-zero identifier). -/
structure SpanContext where
  traceId : Nat
  spanId : Nat
  deriving DecidableEq, Repr

/-- The zero `trace.SpanContext{}`. -/
def SpanContext.zero : SpanContext := ⟨0, 0⟩

/-- The method `SpanContext.IsValid`: both identifiers are non-zero. -/
def SpanContext.IsValid (sc : SpanContext) : Bool :=
  sc.traceId != 0 && sc.spanId != 0

/-- Keys under which values are stored in a context. Each constructor is one of the
unexported key types of the source (`operation{}` of gormbox, `operationKey{}`,
`loggerTimeKey{}`, `metricTimeKey{}` of redisbox), the key under which the
tracing library keeps the active span, or a key of some other package. -/
inductive Key where
  | gormOperation
  | redisOperationKey
  | loggerTimeKey
  | metricTimeKey
  | currentSpanKey
  | foreign (n : Nat)
  deriving DecidableEq, Repr

/-- Values stored in a context (`interface{}`), by dynamic type: a `string`, a
`time.Time` (nanoseconds of the monotonic clock), a span, or something else. -/
inductive Val where
  | str (s : String)
  | time (t : Int)
  | span (sc : SpanContext)
  | foreign (n : Nat)
  deriving DecidableEq, Repr

/-- A non-nil `context.Context`: `context.Background()` extended by
`context.WithValue` frames. -/
inductive Ctx where
  | background
  | withValue (parent : Ctx) (key : Key) (val : Val)
  deriving DecidableEq, Repr

/-- The method `ctx.Value(key)`: the innermost frame with that key wins. -/
def Ctx.Value : Ctx → Key → Option Val
  | .background, _ => none
  | .withValue parent k v, key => if key = k then some v else parent.Value key

/-! ## gormbox: operation name in the context (`gormbox/gorm.go`) -/

namespace gormbox

/-- `WithOperation`: `context.WithValue(ctx, operation{}, id)`. -/
def WithOperation (ctx : Ctx) (id : String) : Ctx :=
  .withValue ctx .gormOperation (.str id)

/-- `OperationFrom`: the value under `operation{}` when it is a string, else `""`. -/
def OperationFrom (ctx : Ctx) : String :=
  match ctx.Value .gormOperation with
  | some (.str sqlId) => sqlId
  | _ => ""

end gormbox

/-! ## redisbox: operation name in the context (`redisbox/redis.go`) -/

namespace redisbox

/-- `WithOperation`: `context.WithValue(ctx, operationKey{}, operation)`. -/
def WithOperation (ctx : Ctx) (operation : String) : Ctx :=
  .withValue ctx .redisOperationKey (.str operation)

/-- `OperationFrom`: the value under `operationKey{}` when it is a string, else `""`. -/
def OperationFrom (ctx : Ctx) : String :=
  match ctx.Value .redisOperationKey with
  | some (.str operation) => operation
  | _ => ""

end redisbox

/-! ## The outside world: tracer, logger, metric vectors, clock -/

/-- Status codes of `go.opentelemetry.io/otel/codes`. -/
inductive Code where
  | Unset
  | Error
  | Ok
  deriving DecidableEq, Repr

/-- Severity of a line handed to the `zap` logger (`logger.Info`, `logger.Error`). -/
inductive Level where
  | info
  | error
  deriving DecidableEq, Repr

/-- Value of a span attribute, by the constructor used in the source
(`String`, `StringSlice`, `attribute.Int`). -/
inductive AttrVal where
  | string (s : String)
  | stringSlice (ss : List String)
  | int (i : Int)
  deriving DecidableEq, Repr

/-- One call made on an outside collaborator. The list of events of a `World` is the
sequence of these calls in program order. -/
inductive Event where
  /-- The call `tracer.Start(ctx, name)` of tracer `tracer` created span `sc`; `parent` is the
  span context found in `ctx` (zero when there is none). -/
  | spanStart (tracer : String) (sc : SpanContext) (name : String) (parent : SpanContext)
  /-- The call `span.SetAttributes(key = val)` on span `sc`. -/
  | setAttributes (sc : SpanContext) (key : String) (val : AttrVal)
  /-- The call `span.RecordError(err)` on span `sc`. -/
  | recordError (sc : SpanContext) (err : GoError)
  /-- The call `span.SetStatus(code, description)` on span `sc`. -/
  | setStatus (sc : SpanContext) (code : Code) (description : String)
  /-- The call `span.End()` on span `sc`. -/
  | spanEnd (sc : SpanContext)
  /-- The call `logger.Info(msg, fields...)` or `logger.Error(msg, fields...)`. -/
  | log (level : Level) (msg : String) (fields : List (String × String))
  /-- The call `vec.WithLabelValues(labels...).Inc()` on the counter vector named `metric`. -/
  | counterInc (metric : String) (labels : List String)
  /-- The call `vec.WithLabelValues(labels...).Observe(d.Seconds())` on the histogram vector named
  `metric`; `elapsed` is the duration `d` in nanoseconds whose seconds are observed. -/
  | observe (metric : String) (labels : List String) (elapsed : Int)
  deriving DecidableEq, Repr

/-- State outside the client: the monotonic clock in nanoseconds (`time.Now`), the
counter from which the tracer draws fresh identifiers, and the calls made so far on
tracer, logger and metric vectors. -/
structure World where
  clock : Int
  nextId : Nat
  events : List Event
  deriving DecidableEq, Repr

/-- Append one event to the world. -/
def World.emit (w : World) (e : Event) : World :=
  { w with events := w.events ++ [e] }

/-- A `trace.Span` handle: the no-op span returned when a context carries none, or
a live span identified by its span context. -/
inductive Span where
  | noop
  | live (sc : SpanContext)
  deriving DecidableEq, Repr

/-- The function `trace.SpanFromContext(ctx)`: the span stored in `ctx`, or the no-op span. -/
def SpanFromContext (ctx : Ctx) : Span :=
  match ctx.Value .currentSpanKey with
  | some (.span sc) => .live sc
  | _ => .noop

/-- The method `span.SpanContext()`. -/
def Span.SpanContext : Span → SpanContext
  | .noop => SpanContext.zero
  | .live sc => sc

/-- The function `trace.SpanContextFromContext(ctx)`. -/
def SpanContextFromContext (ctx : Ctx) : SpanContext :=
  (SpanFromContext ctx).SpanContext

/-- The function `trace.ContextWithSpan(ctx, span)`. -/
def ContextWithSpan (ctx : Ctx) (sc : SpanContext) : Ctx :=
  .withValue ctx .currentSpanKey (.span sc)

/-- The method `tracer.Start(ctx, name)`: a new span with a fresh span identifier, in the trace of
the span active in `ctx` when that one is valid and in a fresh trace otherwise; returns the
context carrying the new span, and the span. -/
def tracerStart (tracer : String) (ctx : Ctx) (name : String) (w : World) :
    (Ctx × Span) × World :=
  let parent := SpanContextFromContext ctx
  let fresh := w.nextId + 1
  let sc : SpanContext := ⟨if parent.IsValid then parent.traceId else fresh, fresh⟩
  ((ContextWithSpan ctx sc, .live sc),
    { w with nextId := fresh, events := w.events ++ [.spanStart tracer sc name parent] })

/-- The method `span.SetAttributes(kv)`; nothing happens on the no-op span. -/
def Span.SetAttributes (span : Span) (key : String) (val : AttrVal) (w : World) : World :=
  match span with
  | .noop => w
  | .live sc => w.emit (.setAttributes sc key val)

/-- The method `span.RecordError(err)`; nothing happens on the no-op span, nor for a nil error. -/
def Span.RecordError (span : Span) (err : Option GoError) (w : World) : World :=
  match span, err with
  | .live sc, some e => w.emit (.recordError sc e)
  | _, _ => w

/-- The method `span.SetStatus(code, description)`; nothing happens on the no-op span. -/
def Span.SetStatus (span : Span) (code : Code) (description : String) (w : World) : World :=
  match span with
  | .noop => w
  | .live sc => w.emit (.setStatus sc code description)

/-- The method `span.End()`; nothing happens on the no-op span. -/
def Span.End (span : Span) (w : World) : World :=
  match span with
  | .noop => w
  | .live sc => w.emit (.spanEnd sc)

/-- One lower-case hexadecimal digit. -/
def hexDigit (n : Nat) : Char :=
  if n < 10 then Char.ofNat (48 + n) else Char.ofNat (87 + n)

/-- The `width` lowest hexadecimal digits of `n`, most significant first. -/
def hexFixed : Nat → Nat → List Char
  | 0, _ => []
  | width + 1, n => hexFixed width (n / 16) ++ [hexDigit (n % 16)]

/-- The method `TraceID.String()`: 16 bytes as 32 hexadecimal digits. -/
def TraceIDString (sc : SpanContext) : String :=
  String.mk (hexFixed 32 sc.traceId)

/-- The method `SpanID.String()`: 8 bytes as 16 hexadecimal digits. -/
def SpanIDString (sc : SpanContext) : String :=
  String.mk (hexFixed 16 sc.spanId)

/-- Options of a prometheus counter or histogram vector, with its label names. -/
structure MetricVec where
  Namespace : String
  Subsystem : String
  Name : String
  Help : String
  labelNames : List String
  deriving DecidableEq, Repr

/-- The function `prometheus.BuildFQName`: the non-empty parts joined by `_`
(empty when the name itself is empty). -/
def MetricVec.fqName (v : MetricVec) : String :=
  if v.Name = "" then ""
  else if v.Namespace ≠ "" ∧ v.Subsystem ≠ "" then
    String.intercalate "_" [v.Namespace, v.Subsystem, v.Name]
  else if v.Namespace ≠ "" then String.intercalate "_" [v.Namespace, v.Name]
  else if v.Subsystem ≠ "" then String.intercalate "_" [v.Subsystem, v.Name]
  else v.Name

/-- The calls `vec.WithLabelValues(labels...).Inc()`. -/
def MetricVec.Inc (v : MetricVec) (labels : List String) (w : World) : World :=
  w.emit (.counterInc v.fqName labels)

/-- The calls `vec.WithLabelValues(labels...).Observe(elapsed.Seconds())`. -/
def MetricVec.Observe (v : MetricVec) (labels : List String) (elapsed : Int) (w : World) :
    World :=
  w.emit (.observe v.fqName labels elapsed)

/-- A collector handed to `prometheus.MustRegister`, by the constructor that made it
(`prometheus.NewCounterVec`, `prometheus.NewHistogramVec`). -/
inductive Collector where
  | counterVec (v : MetricVec)
  | histogramVec (v : MetricVec)
  deriving DecidableEq, Repr

/-- The fully qualified name of the series of a collector. -/
def Collector.fqName : Collector → String
  | .counterVec v => v.fqName
  | .histogramVec v => v.fqName

/-- The label names of a collector, in order. -/
def Collector.labelNames : Collector → List String
  | .counterVec v => v.labelNames
  | .histogramVec v => v.labelNames

/-! ## Views of the event list -/

/-- Names of the spans started, in order. -/
def spansStarted : List Event → List String
  | [] => []
  | .spanStart _ _ name _ :: es => name :: spansStarted es
  | _ :: es => spansStarted es

/-- Log lines emitted, in order. -/
def logLines : List Event → List (Level × String × List (String × String))
  | [] => []
  | .log level msg fields :: es => (level, msg, fields) :: logLines es
  | _ :: es => logLines es

/-- Value added to the counter `metric` with label values `labels`: the number of its increments. -/
def counterValue (metric : String) (labels : List String) : List Event → Nat
  | [] => 0
  | .counterInc m ls :: es =>
      (if m = metric ∧ ls = labels then 1 else 0) + counterValue metric labels es
  | _ :: es => counterValue metric labels es

/-- Durations observed by the histogram `metric` with label values `labels`, in order. -/
def observations (metric : String) (labels : List String) : List Event → List Int
  | [] => []
  | .observe m ls d :: es =>
      if m = metric ∧ ls = labels then d :: observations metric labels es
      else observations metric labels es
  | _ :: es => observations metric labels es

/-- Number of `span.End()` calls made on span `sc`. -/
def endCount (sc : SpanContext) : List Event → Nat
  | [] => 0
  | .spanEnd sc' :: es => (if sc' = sc then 1 else 0) + endCount sc es
  | _ :: es => endCount sc es

/-- Errors recorded on span `sc` by `span.RecordError`, in order. -/
def errorsRecorded (sc : SpanContext) : List Event → List GoError
  | [] => []
  | .recordError sc' err :: es =>
      if sc' = sc then err :: errorsRecorded sc es else errorsRecorded sc es
  | _ :: es => errorsRecorded sc es

/-- Statuses set on span `sc` by `span.SetStatus`, in order. -/
def statusesSet (sc : SpanContext) : List Event → List (Code × String)
  | [] => []
  | .setStatus sc' code d :: es =>
      if sc' = sc then (code, d) :: statusesSet sc es else statusesSet sc es
  | _ :: es => statusesSet sc es

/-! ## Library renderings -/

/-- A redis command (`redis.Cmder`): its name and arguments, and the error stored in it
(`cmd.Err()`, `cmd.SetErr`). -/
structure Cmd where
  args : List String
  err : Option GoError
  deriving DecidableEq, Repr

/-- The method `cmd.SetErr(err)`. -/
def Cmd.SetErr (cmd : Cmd) (err : Option GoError) : Cmd :=
  { cmd with err := err }

/-- Library functions whose result only appears as text inside an attribute or a log message;
they are parameters of the development:
`time.Duration.String`, `(*gorm.DB).Explain` (the dialector's rendering of a statement with its
variables), `rediscmd.CmdString` and `rediscmd.CmdsString`. -/
structure Lib where
  DurationString : Int → String
  Explain : String → List String → String
  CmdString : Cmd → String
  CmdsString : List Cmd → String × String

/-- The function `strconv.FormatInt(i, 10)`. -/
def FormatInt (i : Int) : String :=
  if i < 0 then "-" ++ toString i.natAbs else toString i.natAbs

/-- The function `strings.Join(elems, sep)`. -/
def stringsJoin (elems : List String) (sep : String) : String :=
  sep.intercalate elems

/-! ## gormbox: the interceptors (`gorm/interceptor.go`)

The file is the interceptor file of the relational client: `gormbox/build.go` installs
`InterceptorTracing`, `InterceptorLogging` and `InterceptorMetrics` by these names, and the
interceptors read the operation name with `OperationFrom`, embedded above from
`gormbox/gorm.go`. The registration of the two metric vectors with prometheus happens once, when
`InterceptorMetrics` is called, and is not part of a handler. -/

namespace gormbox

/-- The struct `DSN` of `gormbox/dsn_parser.go`. -/
structure DSN where
  Driver : String
  Net : String
  Addr : String
  Username : String
  Password : String
  DbName : String
  deriving DecidableEq, Repr

/-- The part of `gorm.Statement` the interceptors use: the context (possibly nil), the SQL text
built so far, its variables and the error of the operation. -/
structure Statement where
  Context : Option Ctx
  SQL : String
  Vars : List String
  Error : Option GoError
  deriving DecidableEq, Repr

/-- The part of `gorm.DB` the interceptors use. -/
structure DB where
  Statement : Statement
  deriving DecidableEq, Repr

/-- What a handler can read and change: the `*gorm.DB` it is given, and the world. -/
structure GState where
  db : DB
  world : World
  deriving DecidableEq, Repr

/-- The type `Handler func(*gorm.DB)`. -/
abbrev Handler := GState → GState

/-- The type `Interceptor func(operation string, next Handler) Handler`. -/
abbrev Interceptor := String → Handler → Handler

/-- The function `detailSQL`. -/
def detailSQL (lib : Lib) (db : DB) : String :=
  lib.Explain db.Statement.SQL db.Statement.Vars

/-- The function `InterceptorTracing`. The deferred `span.End()` is the last call. -/
def InterceptorTracing (dsn : DSN) : Interceptor := fun _action next s =>
  match s.db.Statement.Context with
  | none => next s
  | some ctx =>
    let operation := OperationFrom ctx
    if operation = "" then next s
    else
      let ((ctx, span), w) := tracerStart dsn.Driver ctx operation s.world
      let w := span.SetAttributes "db.system" (.string dsn.Driver) w
      let w := span.SetAttributes "db.connection_string" (.string dsn.Addr) w
      let w := span.SetAttributes "db.user" (.string dsn.Username) w
      let w := span.SetAttributes "db.name" (.string dsn.DbName) w
      let w := span.SetAttributes "db.statement" (.string s.db.Statement.SQL) w
      let w := span.SetAttributes "db.operation" (.string operation) w
      let w := span.SetAttributes "trace_id"
        (.string (TraceIDString (SpanContextFromContext ctx))) w
      let s := next { db := s.db, world := w }
      let w :=
        match s.db.Statement.Error with
        | some err => span.SetStatus .Error err.Error (span.RecordError (some err) s.world)
        | none => span.SetStatus .Ok "OK" s.world
      { db := s.db, world := span.End w }

/-- The message assembled by `InterceptorLogging` in its `strings.Builder`. -/
def logMessage (lib : Lib) (dsn : DSN) (operation : String) (db : DB) (latency : Int) : String :=
  "db.operation=" ++ operation ++ "\t" ++
  ("db.system=" ++ dsn.Driver) ++ "\t" ++
  ("db.connection_string=" ++ dsn.Addr) ++ "\t" ++
  ("db.user=" ++ dsn.Username) ++ "\t" ++
  ("db.name=" ++ dsn.DbName) ++ "\t" ++
  ("db.statement=" ++ detailSQL lib db) ++ "\t" ++
  ("latency=" ++ lib.DurationString latency) ++ "\t"

/-- The function `InterceptorLogging`; the calls on `logger` are log events of the world. -/
def InterceptorLogging (lib : Lib) (dsn : DSN) : Interceptor := fun _action next s =>
  let st := s.world.clock
  match s.db.Statement.Context with
  | none => next s
  | some ctx =>
    let operation := OperationFrom ctx
    if operation = "" then next s
    else
      let s := next s
      let latency := s.world.clock - st
      let message := logMessage lib dsn operation s.db latency
      let traceId := TraceIDString (SpanContextFromContext ctx)
      let spanId := SpanIDString (SpanContextFromContext ctx)
      match s.db.Statement.Error with
      | some err =>
        { s with world := s.world.emit (.log .error message
            [("trace_id", traceId), ("span_id", spanId),
             ("exception_msg", err.Error), ("exception_type", "gorm")]) }
      | none =>
        { s with world := s.world.emit (.log .info message
            [("trace_id", traceId), ("span_id", spanId)]) }

/-- The counter vector `requestsTotals` of `InterceptorMetrics`. -/
def requestsTotals : MetricVec :=
  { Namespace := "db", Subsystem := "requests", Name := "totals",
    Help := "The total number of db operation",
    labelNames := ["db_instance", "db_name", "operation"] }

/-- The histogram vector `requestLatency` of `InterceptorMetrics`. -/
def requestLatency : MetricVec :=
  { Namespace := "db", Subsystem := "requests", Name := "latency_seconds",
    Help := "The second latency of db operation",
    labelNames := ["db_instance", "db_name", "operation"] }

/-- The collectors `InterceptorMetrics` registers when it is called:
`prometheus.MustRegister(requestsTotals, requestLatency)`. -/
def registered : List Collector :=
  [.counterVec requestsTotals, .histogramVec requestLatency]

/-- The handler transformer returned by `InterceptorMetrics` (both branches on
`db.Statement.Error` are kept as written). -/
def InterceptorMetrics (dsn : DSN) : Interceptor := fun _action next s =>
  let st := s.world.clock
  match s.db.Statement.Context with
  | none => next s
  | some ctx =>
    let operation := OperationFrom ctx
    if operation = "" then next s
    else
      let s := next s
      match s.db.Statement.Error with
      | none =>
        let w := requestsTotals.Inc [dsn.Addr, dsn.DbName, operation] s.world
        { s with world :=
            requestLatency.Observe [dsn.Addr, dsn.DbName, operation] (w.clock - st) w }
      | some _ =>
        let w := requestsTotals.Inc [dsn.Addr, dsn.DbName, operation] s.world
        { s with world :=
            requestLatency.Observe [dsn.Addr, dsn.DbName, operation] (w.clock - st) w }

/-! ### `Config.Build` (`gormbox/build.go`) -/

/-- A callback processor (`Processor`): `Get` is application to the callback name. -/
abbrev Processor := String → Handler

/-- The method `processor.Replace(name, handler)`. -/
def Processor.Replace (processor : Processor) (name : String) (handler : Handler) : Processor :=
  fun n => if n = name then handler else processor n

/-- The five processors of `db.Callback()` that `Build` touches. -/
structure Callbacks where
  Create : Processor
  Update : Processor
  Delete : Processor
  Query : Processor
  Raw : Processor

/-- The closure `replace` of `Build`: the loop wraps the handler found under `callbackName` in
each interceptor of `ints` in turn and installs the result. -/
def replace (ints : List Interceptor) (processor : Processor) (callbackName : String) :
    Processor :=
  let handler := ints.foldl (fun handler interceptor => interceptor callbackName handler)
    (processor callbackName)
  processor.Replace callbackName handler

/-- The method `Config.Build`, given the results of `parser.ParseDSN(x.Dsn)` and of `gorm.Open`:
an error of either is returned, otherwise the three interceptors are installed on the five
processors. -/
def Build (lib : Lib) (parsed : Except GoError DSN) (opened : Except GoError Callbacks) :
    Except GoError Callbacks :=
  match parsed with
  | .error err => .error err
  | .ok dsn =>
    match opened with
    | .error err => .error err
    | .ok db =>
      let ints := [InterceptorTracing dsn, InterceptorLogging lib dsn, InterceptorMetrics dsn]
      .ok { Create := replace ints db.Create "gorm:create"
            Update := replace ints db.Update "gorm:update"
            Delete := replace ints db.Delete "gorm:delete"
            Query := replace ints db.Query "gorm:query"
            Raw := replace ints db.Raw "gorm:raw" }

end gormbox

/-! ## redisbox: the hooks (`redisbox/interceptor.go`) -/

namespace redisbox

/-- The struct `DSN` of `redisbox/interceptor.go`. -/
structure DSN where
  Addr : List String
  DB : Int
  deriving DecidableEq, Repr

/-- What a hook call can read and change: the command (or the batch of commands) it is handed,
and the world. -/
structure PState (α : Type) where
  cmd : α
  world : World
  deriving DecidableEq, Repr

/-- The interface `redis.Hook`. A hook method returns its results next to the state it leaves;
`AfterProcessPipeline` returns `none` when it stops with a run-time panic. -/
structure Hook where
  BeforeProcess : Ctx → PState Cmd → (Ctx × Option GoError) × PState Cmd
  AfterProcess : Ctx → PState Cmd → Option GoError × PState Cmd
  BeforeProcessPipeline :
    Ctx → PState (List Cmd) → (Ctx × Option GoError) × PState (List Cmd)
  AfterProcessPipeline :
    Ctx → PState (List Cmd) → Option (Option GoError × PState (List Cmd))

/-- The function `IsActualError`: `err != nil && err != redis.Nil`. -/
def IsActualError (err : Option GoError) : Bool :=
  err != none && err != some .redisNil

/-- The message of `err.Error()` for the error stored in a command (read only when non-nil). -/
def errMessage (err : Option GoError) : String :=
  match err with
  | some e => e.Error
  | none => ""

/-- The index expression `cmds[0]`: `none` is the index-out-of-range panic. -/
def first (cmds : List Cmd) : Option Cmd :=
  cmds.head?

/-! ### hookTrace -/

/-- The method `hookTrace.BeforeProcess`. -/
def hookTrace.BeforeProcess (lib : Lib) (dsn : DSN) (ctx : Ctx) (s : PState Cmd) :
    (Ctx × Option GoError) × PState Cmd :=
  let operation := OperationFrom ctx
  if operation = "" then ((ctx, none), s)
  else
    let ((ctx, span), w) := tracerStart "redis" ctx operation s.world
    let w := span.SetAttributes "db.system" (.string "redis") w
    let w := span.SetAttributes "db.connection_string" (.stringSlice dsn.Addr) w
    let w := span.SetAttributes "db.name" (.int dsn.DB) w
    let w := span.SetAttributes "db.statement" (.string (lib.CmdString s.cmd)) w
    let w := span.SetAttributes "db.operation" (.string operation) w
    ((ctx, none), { s with world := w })

/-- The method `hookTrace.AfterProcess`. -/
def hookTrace.AfterProcess (ctx : Ctx) (s : PState Cmd) : Option GoError × PState Cmd :=
  let span := SpanFromContext ctx
  let w := if IsActualError s.cmd.err then span.RecordError s.cmd.err s.world else s.world
  (none, { s with world := span.End w })

/-- The method `hookTrace.BeforeProcessPipeline`. -/
def hookTrace.BeforeProcessPipeline (lib : Lib) (dsn : DSN) (ctx : Ctx)
    (s : PState (List Cmd)) : (Ctx × Option GoError) × PState (List Cmd) :=
  let operation := OperationFrom ctx
  if operation = "" then ((ctx, none), s)
  else
    let cmdAction := (lib.CmdsString s.cmd).2
    let ((ctx, span), w) := tracerStart "redis" ctx operation s.world
    let w := span.SetAttributes "db.system" (.string "redis") w
    let w := span.SetAttributes "db.connection_string" (.stringSlice dsn.Addr) w
    let w := span.SetAttributes "db.name" (.string (FormatInt dsn.DB)) w
    let w := span.SetAttributes "db.statement" (.string cmdAction) w
    let w := span.SetAttributes "db.operation" (.string operation) w
    ((ctx, none), { s with world := w })

/-- The method `hookTrace.AfterProcessPipeline`. -/
def hookTrace.AfterProcessPipeline (ctx : Ctx) (s : PState (List Cmd)) :
    Option (Option GoError × PState (List Cmd)) :=
  let span := SpanFromContext ctx
  match first s.cmd with
  | none => none
  | some cmd0 =>
    let w := if IsActualError cmd0.err then span.RecordError cmd0.err s.world else s.world
    some (none, { s with world := span.End w })

/-- The constructor `newHookTrace`. -/
def newHookTrace (lib : Lib) (dsn : DSN) : Hook :=
  { BeforeProcess := hookTrace.BeforeProcess lib dsn
    AfterProcess := hookTrace.AfterProcess
    BeforeProcessPipeline := hookTrace.BeforeProcessPipeline lib dsn
    AfterProcessPipeline := hookTrace.AfterProcessPipeline }

/-! ### hookLogger -/

/-- The type assertion `ctx.Value(key).(time.Time)`. -/
def timeValue (ctx : Ctx) (key : Key) : Option Int :=
  match ctx.Value key with
  | some (.time st) => some st
  | _ => none

/-- The message assembled by `hookLogger` in its `strings.Builder`. -/
def logMessage (lib : Lib) (dsn : DSN) (operation statement : String) (latency : Int) :
    String :=
  "db.operation=" ++ operation ++ "\t" ++
  ("db.connection_string=" ++ stringsJoin dsn.Addr ",") ++ "\t" ++
  ("db.name=" ++ FormatInt dsn.DB) ++ "\t" ++
  ("db.statement=" ++ statement) ++ "\t" ++
  ("latency=" ++ lib.DurationString latency) ++ "\t"

/-- The final `if IsActualError(err) { logger.Error(...) } else { logger.Info(...) }` of both
`After` methods of `hookLogger`. -/
def logOutcome (ctx : Ctx) (message : String) (err : Option GoError) (w : World) : World :=
  let traceId := TraceIDString (SpanContextFromContext ctx)
  let spanId := SpanIDString (SpanContextFromContext ctx)
  if IsActualError err then
    w.emit (.log .error message
      [("trace_id", traceId), ("span_id", spanId),
       ("exception_msg", errMessage err), ("exception_type", "redis")])
  else
    w.emit (.log .info message [("trace_id", traceId), ("span_id", spanId)])

/-- The method `hookLogger.BeforeProcess`. -/
def hookLogger.BeforeProcess (ctx : Ctx) (s : PState Cmd) :
    (Ctx × Option GoError) × PState Cmd :=
  let operation := OperationFrom ctx
  if operation = "" then ((ctx, none), s)
  else ((.withValue ctx .loggerTimeKey (.time s.world.clock), none), s)

/-- The method `hookLogger.AfterProcess`. -/
def hookLogger.AfterProcess (lib : Lib) (dsn : DSN) (ctx : Ctx) (s : PState Cmd) :
    Option GoError × PState Cmd :=
  let operation := OperationFrom ctx
  if operation = "" then (none, s)
  else
    match timeValue ctx .loggerTimeKey with
    | none => (none, s)
    | some st =>
      let latency := s.world.clock - st
      let message := logMessage lib dsn operation (lib.CmdString s.cmd) latency
      (none, { s with world := logOutcome ctx message s.cmd.err s.world })

/-- The method `hookLogger.BeforeProcessPipeline`. -/
def hookLogger.BeforeProcessPipeline (ctx : Ctx) (s : PState (List Cmd)) :
    (Ctx × Option GoError) × PState (List Cmd) :=
  let operation := OperationFrom ctx
  if operation = "" then ((ctx, none), s)
  else ((.withValue ctx .loggerTimeKey (.time s.world.clock), none), s)

/-- The method `hookLogger.AfterProcessPipeline`. -/
def hookLogger.AfterProcessPipeline (lib : Lib) (dsn : DSN) (ctx : Ctx)
    (s : PState (List Cmd)) : Option (Option GoError × PState (List Cmd)) :=
  let operation := OperationFrom ctx
  if operation = "" then some (none, s)
  else
    match timeValue ctx .loggerTimeKey with
    | none => some (none, s)
    | some st =>
      let cmdAction := (lib.CmdsString s.cmd).2
      let message := logMessage lib dsn operation cmdAction (s.world.clock - st)
      match first s.cmd with
      | none => none
      | some cmd0 => some (none, { s with world := logOutcome ctx message cmd0.err s.world })

/-- The constructor `newHookLogger`. -/
def newHookLogger (lib : Lib) (dsn : DSN) : Hook :=
  { BeforeProcess := hookLogger.BeforeProcess
    AfterProcess := hookLogger.AfterProcess lib dsn
    BeforeProcessPipeline := hookLogger.BeforeProcessPipeline
    AfterProcessPipeline := hookLogger.AfterProcessPipeline lib dsn }

/-! ### hookMetric -/

/-- The counter vector `requestsTotals` of `newHookMetric`. -/
def requestsTotals : MetricVec :=
  { Namespace := "redis", Subsystem := "requests", Name := "totals",
    Help := "The total number of db operation",
    labelNames := ["redis_instance", "db", "operation"] }

/-- The histogram vector `requestLatency` of `newHookMetric`. -/
def requestLatency : MetricVec :=
  { Namespace := "redis", Subsystem := "requests", Name := "latency_seconds",
    Help := "The second latency of db operation",
    labelNames := ["redis_instance", "db", "operation"] }

/-- The collectors `newHookMetric` registers:
`prometheus.MustRegister(requestsTotals, requestLatency)`. -/
def registered : List Collector :=
  [.counterVec requestsTotals, .histogramVec requestLatency]

/-- The method `hookMetric.BeforeProcess`. -/
def hookMetric.BeforeProcess (ctx : Ctx) (s : PState Cmd) :
    (Ctx × Option GoError) × PState Cmd :=
  let operation := OperationFrom ctx
  if operation = "" then ((ctx, none), s)
  else ((.withValue ctx .metricTimeKey (.time s.world.clock), none), s)

/-- The body shared by `hookMetric.AfterProcess` and `hookMetric.AfterProcessPipeline`
(the two are the same text; neither looks at the command). -/
def hookMetric.after (dsn : DSN) (ctx : Ctx) (w : World) : World :=
  let operation := OperationFrom ctx
  if operation = "" then w
  else
    match timeValue ctx .metricTimeKey with
    | none => w
    | some st =>
      let instanceStr := stringsJoin dsn.Addr ","
      let dbStr := FormatInt dsn.DB
      let w := requestsTotals.Inc [instanceStr, dbStr, operation] w
      requestLatency.Observe [instanceStr, dbStr, operation] (w.clock - st) w

/-- The method `hookMetric.AfterProcess`. -/
def hookMetric.AfterProcess (dsn : DSN) (ctx : Ctx) (s : PState Cmd) :
    Option GoError × PState Cmd :=
  (none, { s with world := hookMetric.after dsn ctx s.world })

/-- The method `hookMetric.BeforeProcessPipeline`. -/
def hookMetric.BeforeProcessPipeline (ctx : Ctx) (s : PState (List Cmd)) :
    (Ctx × Option GoError) × PState (List Cmd) :=
  let operation := OperationFrom ctx
  if operation = "" then ((ctx, none), s)
  else ((.withValue ctx .metricTimeKey (.time s.world.clock), none), s)

/-- The method `hookMetric.AfterProcessPipeline`. -/
def hookMetric.AfterProcessPipeline (dsn : DSN) (ctx : Ctx) (s : PState (List Cmd)) :
    Option (Option GoError × PState (List Cmd)) :=
  some (none, { s with world := hookMetric.after dsn ctx s.world })

/-- The constructor `newHookMetric`. -/
def newHookMetric (dsn : DSN) : Hook :=
  { BeforeProcess := hookMetric.BeforeProcess
    AfterProcess := hookMetric.AfterProcess dsn
    BeforeProcessPipeline := hookMetric.BeforeProcessPipeline
    AfterProcessPipeline := hookMetric.AfterProcessPipeline dsn }

/-! ### The dispatcher of the client library and `Config.Build` (`redisbox/build.go`)

The hooks are called by go-redis (v8, `hooks.process` and `hooks.processPipeline`): every
`Before` method in registration order as long as none returns an error, then the command itself,
then the `After` method of every hook whose `Before` method ran, last registered first, all with
the context returned by the last `Before` method. -/

/-- The function `setCmdsErr(cmds, err)` of go-redis. -/
def setCmdsErr (cmds : List Cmd) (err : Option GoError) : List Cmd :=
  cmds.map (fun cmd => cmd.SetErr err)

/-- The first loop of `hooks.process`; returns the hooks whose `BeforeProcess` ran (last one
first), the context and the error of the last one. -/
def runBeforeProcess : List Hook → Ctx → PState Cmd →
    (List Hook × Ctx × Option GoError) × PState Cmd
  | [], ctx, s => (([], ctx, none), s)
  | hook :: rest, ctx, s =>
    let ((ctx, retErr), s) := hook.BeforeProcess ctx s
    match retErr with
    | some err => (([hook], ctx, some err), { s with cmd := s.cmd.SetErr (some err) })
    | none =>
      let ((ran, ctx, retErr), s) := runBeforeProcess rest ctx s
      ((ran ++ [hook], ctx, retErr), s)

/-- The last loop of `hooks.process`, over the hooks that ran, last one first. -/
def runAfterProcess : List Hook → Ctx → Option GoError → PState Cmd →
    Option GoError × PState Cmd
  | [], _, retErr, s => (retErr, s)
  | hook :: rest, ctx, retErr, s =>
    let (err, s) := hook.AfterProcess ctx s
    match err with
    | some e => runAfterProcess rest ctx (some e) { s with cmd := s.cmd.SetErr (some e) }
    | none => runAfterProcess rest ctx retErr s

/-- The method `hooks.process` of go-redis; `fn` executes the command. -/
def process (hooks : List Hook) (fn : Ctx → PState Cmd → Option GoError × PState Cmd)
    (ctx : Ctx) (s : PState Cmd) : Option GoError × PState Cmd :=
  match hooks with
  | [] =>
    let (err, s) := fn ctx s
    (err, { s with cmd := s.cmd.SetErr err })
  | _ :: _ =>
    let ((ran, ctx, retErr), s) := runBeforeProcess hooks ctx s
    let (retErr, s) :=
      match retErr with
      | none =>
        let (err, s) := fn ctx s
        (err, { s with cmd := s.cmd.SetErr err })
      | some err => (some err, s)
    runAfterProcess ran ctx retErr s

/-- The first loop of `hooks.processPipeline`. -/
def runBeforeProcessPipeline : List Hook → Ctx → PState (List Cmd) →
    (List Hook × Ctx × Option GoError) × PState (List Cmd)
  | [], ctx, s => (([], ctx, none), s)
  | hook :: rest, ctx, s =>
    let ((ctx, retErr), s) := hook.BeforeProcessPipeline ctx s
    match retErr with
    | some err => (([hook], ctx, some err), { s with cmd := setCmdsErr s.cmd (some err) })
    | none =>
      let ((ran, ctx, retErr), s) := runBeforeProcessPipeline rest ctx s
      ((ran ++ [hook], ctx, retErr), s)

/-- The last loop of `hooks.processPipeline`; `none` when a hook panics. -/
def runAfterProcessPipeline : List Hook → Ctx → Option GoError → PState (List Cmd) →
    Option (Option GoError × PState (List Cmd))
  | [], _, retErr, s => some (retErr, s)
  | hook :: rest, ctx, retErr, s =>
    match hook.AfterProcessPipeline ctx s with
    | none => none
    | some (some e, s) =>
      runAfterProcessPipeline rest ctx (some e) { s with cmd := setCmdsErr s.cmd (some e) }
    | some (none, s) => runAfterProcessPipeline rest ctx retErr s

/-- The method `hooks.processPipeline` of go-redis; `fn` executes the batch. -/
def processPipeline (hooks : List Hook)
    (fn : Ctx → PState (List Cmd) → Option GoError × PState (List Cmd))
    (ctx : Ctx) (s : PState (List Cmd)) : Option (Option GoError × PState (List Cmd)) :=
  match hooks with
  | [] => some (fn ctx s)
  | _ :: _ =>
    let ((ran, ctx, retErr), s) := runBeforeProcessPipeline hooks ctx s
    let (retErr, s) :=
      match retErr with
      | none => fn ctx s
      | some err => (some err, s)
    runAfterProcessPipeline ran ctx retErr s

/-- The configuration fields `Build` reads. -/
structure Config where
  Addr : List String
  Password : String
  Db : Int
  deriving DecidableEq, Repr

/-- The function `errors.WithStack`: a new error value with the same message. -/
def WithStack (err : GoError) : GoError :=
  .other err.Error

/-- The method `Config.Build`, given the result of the `Ping`; the value is the list of hooks added
to the new client, in `AddHook` order. `none` is the panic of `x.Addr[0]` on an empty list. -/
def Build (lib : Lib) (x : Config) (ping : Option GoError) :
    Option (Except GoError (List Hook)) :=
  match x.Addr with
  | [] => none
  | _ :: _ =>
    match ping with
    | some err => some (.error (WithStack err))
    | none =>
      let dsn : DSN := { Addr := x.Addr, DB := x.Db }
      some (.ok [newHookTrace lib dsn, newHookLogger lib dsn, newHookMetric dsn])

end redisbox

end Gobox

/-! ## Vocabulary of the statements, and example values -/

namespace Gobox

/-- The span context of the span `tracer.Start(ctx, _)` creates in world `w`. -/
def startedSpan (ctx : Ctx) (w : World) : SpanContext :=
  ((tracerStart "" ctx "" w).1.2).SpanContext

namespace gormbox

/-- The nesting `Build` produces from `[tracing, logging, metrics]`, written out: the loop wraps
the handler in the first interceptor first, so the last one ends outermost. -/
def metricsOutermost (lib : Lib) (dsn : DSN) (name : String) (base : Handler) : Handler :=
  InterceptorMetrics dsn name (InterceptorLogging lib dsn name (InterceptorTracing dsn name base))

/-- The five processors `Build` instruments, each with the callback name it replaces. -/
def instrumented : List ((Callbacks → Processor) × String) :=
  [(Callbacks.Create, "gorm:create"), (Callbacks.Update, "gorm:update"),
   (Callbacks.Delete, "gorm:delete"), (Callbacks.Query, "gorm:query"),
   (Callbacks.Raw, "gorm:raw")]

/-- A handler that makes no call on tracer, logger or metric vectors. -/
def Silent (h : Handler) : Prop :=
  ∀ s, (h s).world.events = s.world.events

/-- The world after `InterceptorTracing` started the span of an observed operation and set its
attributes. -/
def spanOpened (dsn : DSN) (ctx : Ctx) (sql : String) (w : World) : World :=
  { clock := w.clock
    nextId := w.nextId + 1
    events := w.events ++
      [.spanStart dsn.Driver (startedSpan ctx w) (OperationFrom ctx) (SpanContextFromContext ctx),
       .setAttributes (startedSpan ctx w) "db.system" (.string dsn.Driver),
       .setAttributes (startedSpan ctx w) "db.connection_string" (.string dsn.Addr),
       .setAttributes (startedSpan ctx w) "db.user" (.string dsn.Username),
       .setAttributes (startedSpan ctx w) "db.name" (.string dsn.DbName),
       .setAttributes (startedSpan ctx w) "db.statement" (.string sql),
       .setAttributes (startedSpan ctx w) "db.operation" (.string (OperationFrom ctx)),
       .setAttributes (startedSpan ctx w) "trace_id"
         (.string (TraceIDString (startedSpan ctx w)))] }

/-- The calls `InterceptorTracing` makes on span `sc` once the wrapped handler has returned
with error `err`. -/
def spanClosing (sc : SpanContext) (err : Option GoError) : List Event :=
  match err with
  | some e => [.recordError sc e, .setStatus sc .Error e.Error, .spanEnd sc]
  | none => [.setStatus sc .Ok "OK", .spanEnd sc]

/-- What `InterceptorTracing` does to the state `s1` left by the wrapped handler. -/
def afterTracing (sc : SpanContext) (s1 : GState) : GState :=
  { db := s1.db
    world := { s1.world with events := s1.world.events ++ spanClosing sc s1.db.Statement.Error } }

/-- The line `InterceptorLogging` hands to the logger for an observed operation started at `st`,
given the state `s1` left by the wrapped handler. -/
def logLine (lib : Lib) (dsn : DSN) (ctx : Ctx) (st : Int) (s1 : GState) : Event :=
  match s1.db.Statement.Error with
  | some err =>
    .log .error (logMessage lib dsn (OperationFrom ctx) s1.db (s1.world.clock - st))
      [("trace_id", TraceIDString (SpanContextFromContext ctx)),
       ("span_id", SpanIDString (SpanContextFromContext ctx)),
       ("exception_msg", err.Error), ("exception_type", "gorm")]
  | none =>
    .log .info (logMessage lib dsn (OperationFrom ctx) s1.db (s1.world.clock - st))
      [("trace_id", TraceIDString (SpanContextFromContext ctx)),
       ("span_id", SpanIDString (SpanContextFromContext ctx))]

/-- What `InterceptorLogging` does to the state `s1` left by the wrapped handler. -/
def afterLogging (lib : Lib) (dsn : DSN) (ctx : Ctx) (st : Int) (s1 : GState) : GState :=
  { db := s1.db
    world := { s1.world with events := s1.world.events ++ [logLine lib dsn ctx st s1] } }

/-- What `InterceptorMetrics` does to the state `s1` left by the wrapped handler. -/
def afterMetrics (dsn : DSN) (ctx : Ctx) (st : Int) (s1 : GState) : GState :=
  { db := s1.db
    world := { s1.world with events := s1.world.events ++
      [.counterInc requestsTotals.fqName [dsn.Addr, dsn.DbName, OperationFrom ctx],
       .observe requestLatency.fqName [dsn.Addr, dsn.DbName, OperationFrom ctx]
         (s1.world.clock - st)] } }

/-- The state in which the installed chain calls the base handler: for an observed operation the
span has been started, otherwise nothing has happened. -/
def chainBefore (dsn : DSN) (s : GState) : GState :=
  match s.db.Statement.Context with
  | none => s
  | some ctx =>
    if OperationFrom ctx = "" then s
    else { db := s.db, world := spanOpened dsn ctx s.db.Statement.SQL s.world }

/-- What the installed chain, entered in state `s`, does to the state `s1` left by the base
handler. -/
def chainAfter (lib : Lib) (dsn : DSN) (s s1 : GState) : GState :=
  match s.db.Statement.Context with
  | none => s1
  | some ctx =>
    if OperationFrom ctx = "" then s1
    else
      afterMetrics dsn ctx s.world.clock (afterLogging lib dsn ctx s.world.clock
        (afterTracing (startedSpan ctx s.world) s1))

end gormbox

namespace redisbox

/-- The world after `hookTrace.BeforeProcess` (or `BeforeProcessPipeline`) started the span of an
observed call and set its attributes; `dbName` and `statement` are the two attribute values that
differ between a single command and a batch. -/
def spanOpened (dsn : DSN) (ctx : Ctx) (dbName : AttrVal) (statement : String) (w : World) :
    World :=
  { clock := w.clock
    nextId := w.nextId + 1
    events := w.events ++
      [.spanStart "redis" (startedSpan ctx w) (OperationFrom ctx) (SpanContextFromContext ctx),
       .setAttributes (startedSpan ctx w) "db.system" (.string "redis"),
       .setAttributes (startedSpan ctx w) "db.connection_string" (.stringSlice dsn.Addr),
       .setAttributes (startedSpan ctx w) "db.name" dbName,
       .setAttributes (startedSpan ctx w) "db.statement" (.string statement),
       .setAttributes (startedSpan ctx w) "db.operation" (.string (OperationFrom ctx))] }

/-- The context handed to the `After` methods for an observed call that entered the hooks with
context `ctx` in world `w`: `ctx` extended by the three `Before` methods in registration order. -/
def hookContext (ctx : Ctx) (w : World) : Ctx :=
  .withValue
    (.withValue (ContextWithSpan ctx (startedSpan ctx w)) .loggerTimeKey (.time w.clock))
    .metricTimeKey (.time w.clock)

/-- The line `hookLogger` hands to the logger. -/
def logLine (ctx : Ctx) (message : String) (err : Option GoError) : Event :=
  if IsActualError err then
    .log .error message
      [("trace_id", TraceIDString (SpanContextFromContext ctx)),
       ("span_id", SpanIDString (SpanContextFromContext ctx)),
       ("exception_msg", errMessage err), ("exception_type", "redis")]
  else
    .log .info message
      [("trace_id", TraceIDString (SpanContextFromContext ctx)),
       ("span_id", SpanIDString (SpanContextFromContext ctx))]

/-- The calls `hookTrace.AfterProcess` makes on span `sc` for a command left with error `err`. -/
def spanClosing (sc : SpanContext) (err : Option GoError) : List Event :=
  match err with
  | some e => if e = .redisNil then [.spanEnd sc] else [.recordError sc e, .spanEnd sc]
  | none => [.spanEnd sc]

/-- The calls the three `After` methods make, last registered hook first, for an observed call
that entered the hooks with context `ctx` in world `w0` and whose command, rendered as
`statement`, was left with error `err` at time `now`. -/
def afterEvents (lib : Lib) (dsn : DSN) (ctx : Ctx) (w0 : World) (statement : String)
    (err : Option GoError) (now : Int) : List Event :=
  [.counterInc requestsTotals.fqName
      [stringsJoin dsn.Addr ",", FormatInt dsn.DB, OperationFrom ctx],
   .observe requestLatency.fqName
      [stringsJoin dsn.Addr ",", FormatInt dsn.DB, OperationFrom ctx] (now - w0.clock),
   logLine (hookContext ctx w0)
      (logMessage lib dsn (OperationFrom ctx) statement (now - w0.clock)) err]
  ++ spanClosing (startedSpan ctx w0) err

end redisbox

/-- Example execution of a redis command: it takes 7 ns and leaves the error already stored in the
command. -/
def exFn : Ctx → redisbox.PState Cmd → Option GoError × redisbox.PState Cmd := fun _ s =>
  (s.cmd.err, { s with world := { s.world with clock := s.world.clock + 7 } })

/-- Example execution of a batch: it takes 7 ns and leaves the errors already stored in the
commands. -/
def exFnBatch :
    Ctx → redisbox.PState (List Cmd) → Option GoError × redisbox.PState (List Cmd) := fun _ s =>
  (none, { s with world := { s.world with clock := s.world.clock + 7 } })

/-- Example descriptor of a redis connection. -/
def exRDSN : redisbox.DSN :=
  { Addr := ["localhost:6379"], DB := 1 }

/-- Example configuration of a redis client. -/
def exConfig : redisbox.Config :=
  { Addr := ["localhost:6379"], Password := "root", Db := 1 }

/-- Example command `SET k v`, not yet executed. -/
def exCmd : Cmd :=
  { args := ["set", "k", "v"], err := none }

/-- Example state of a hook call on one command. -/
def exPState (w : World) : redisbox.PState Cmd :=
  { cmd := exCmd, world := w }

/-- Example batch: a `GET` that missed (`redis.Nil`) followed by a command that failed. -/
def exBatch : List Cmd :=
  [{ args := ["get", "k"], err := some .redisNil },
   { args := ["incr", "k"], err := some (.other "ERR value is not an integer") }]

/-- Example context of a caller that has its own span active and set no operation name. -/
def exCallerCtx : Ctx :=
  ContextWithSpan .background ⟨7, 9⟩

/-- Example command that failed. -/
def exCmdFailed : Cmd :=
  { args := ["incr", "k"], err := some (.other "ERR value is not an integer") }

/-- The kind of call an event records. -/
def Event.kind : Event → String
  | .spanStart _ _ _ _ => "spanStart"
  | .setAttributes _ _ _ => "setAttributes"
  | .recordError _ _ => "recordError"
  | .setStatus _ _ _ => "setStatus"
  | .spanEnd _ => "spanEnd"
  | .log _ _ _ => "log"
  | .counterInc _ _ => "counterInc"
  | .observe _ _ _ => "observe"

/-- Whether an event is a call on a metric vector. -/
def Event.isMetricEvent : Event → Bool
  | .counterInc _ _ => true
  | .observe _ _ _ => true
  | _ => false

/-- Example renderings. -/
def exLib : Lib :=
  { DurationString := fun d => toString d ++ "ns"
    Explain := fun sql _ => sql
    CmdString := fun cmd => " ".intercalate cmd.args
    CmdsString := fun cmds => ("", "\n".intercalate (cmds.map fun cmd => " ".intercalate cmd.args)) }

/-- Example descriptor of a MySQL connection. -/
def exDSN : gormbox.DSN :=
  { Driver := "mysql", Net := "tcp", Addr := "127.0.0.1:3306", Username := "root",
    Password := "root", DbName := "web_layout" }

/-- Example base handler: the query takes 5 ns and succeeds. -/
def exBase : gormbox.Handler := fun s =>
  { s with world := { s.world with clock := s.world.clock + 5 } }

/-- Example base handler: the query takes 5 ns and fails. -/
def exBaseFailing : gormbox.Handler := fun s =>
  { db := { s.db with Statement := { s.db.Statement with Error := some (.other "boom") } }
    world := { s.world with clock := s.world.clock + 5 } }

/-- Example callbacks of a freshly opened database: every callback is `exBase`. -/
def exCallbacks : gormbox.Callbacks :=
  { Create := fun _ => exBase, Update := fun _ => exBase, Delete := fun _ => exBase,
    Query := fun _ => exBase, Raw := fun _ => exBase }

/-- Example world: clock at 100 ns, nothing emitted yet. -/
def exWorld : World :=
  { clock := 100, nextId := 0, events := [] }

/-- Example state: a query tagged with the operation name `demo`. -/
def exState : gormbox.GState :=
  { db := { Statement := { Context := some (gormbox.WithOperation .background "demo"),
                           SQL := "SELECT 1", Vars := [], Error := none } }
    world := exWorld }

/-- Example state: a query tagged `demo` issued under the caller's active span. -/
def exStateCaller : gormbox.GState :=
  { db := { Statement := { Context := some (gormbox.WithOperation exCallerCtx "demo"),
                           SQL := "SELECT 1", Vars := [], Error := none } }
    world := exWorld }

/-- Example state: a query whose context carries no operation name. -/
def exStateUntagged : gormbox.GState :=
  { db := { Statement := { Context := some .background,
                           SQL := "SELECT 1", Vars := [], Error := none } }
    world := exWorld }

end Gobox

/-! # Theorems -/

namespace Gobox

/-! ## Context lookups -/

@[simp]
theorem value_withValue_same (ctx : Ctx) (k : Key) (v : Val) :
    (Ctx.withValue ctx k v).Value k = some v := by
  simp [Ctx.Value]

/-- C1: reading the operation name back from a context just tagged with `x` gives `x`, for both
packages and whatever the base context already holds (the hypothesis that `x` is non-empty is
not needed). -/
theorem C1_operationFrom_withOperation (ctx : Ctx) (x : String) :
    gormbox.OperationFrom (gormbox.WithOperation ctx x) = x ∧
    redisbox.OperationFrom (redisbox.WithOperation ctx x) = x := by
  constructor
  · simp [gormbox.OperationFrom, gormbox.WithOperation]
  · simp [redisbox.OperationFrom, redisbox.WithOperation]

/-! ## Views of an appended event list -/

theorem spansStarted_append (a b : List Event) :
    spansStarted (a ++ b) = spansStarted a ++ spansStarted b := by
  induction a with
  | nil => simp [spansStarted]
  | cons e es ih => cases e <;> simp [spansStarted, ih]

theorem logLines_append (a b : List Event) :
    logLines (a ++ b) = logLines a ++ logLines b := by
  induction a with
  | nil => simp [logLines]
  | cons e es ih => cases e <;> simp [logLines, ih]

theorem counterValue_append (metric : String) (labels : List String) (a b : List Event) :
    counterValue metric labels (a ++ b)
      = counterValue metric labels a + counterValue metric labels b := by
  induction a with
  | nil => simp [counterValue]
  | cons e es ih => cases e <;> simp [counterValue, ih, Nat.add_assoc]

theorem observations_append (metric : String) (labels : List String) (a b : List Event) :
    observations metric labels (a ++ b)
      = observations metric labels a ++ observations metric labels b := by
  induction a with
  | nil => simp [observations]
  | cons e es ih =>
    cases e <;> simp [observations, ih]
    split <;> simp

theorem endCount_append (sc : SpanContext) (a b : List Event) :
    endCount sc (a ++ b) = endCount sc a + endCount sc b := by
  induction a with
  | nil => simp [endCount]
  | cons e es ih => cases e <;> simp [endCount, ih, Nat.add_assoc]

theorem errorsRecorded_append (sc : SpanContext) (a b : List Event) :
    errorsRecorded sc (a ++ b) = errorsRecorded sc a ++ errorsRecorded sc b := by
  induction a with
  | nil => simp [errorsRecorded]
  | cons e es ih =>
    cases e <;> simp [errorsRecorded, ih]
    split <;> simp

theorem statusesSet_append (sc : SpanContext) (a b : List Event) :
    statusesSet sc (a ++ b) = statusesSet sc a ++ statusesSet sc b := by
  induction a with
  | nil => simp [statusesSet]
  | cons e es ih =>
    cases e <;> simp [statusesSet, ih]
    split <;> simp

/-! ## gormbox -/

namespace gormbox

theorem tracing_unobserved (dsn : DSN) (action : String) (next : Handler) (s : GState)
    (h : s.db.Statement.Context = none ∨
      ∃ ctx, s.db.Statement.Context = some ctx ∧ OperationFrom ctx = "") :
    InterceptorTracing dsn action next s = next s := by
  rcases h with h | ⟨ctx, h, hop⟩
  · simp [InterceptorTracing, h]
  · simp [InterceptorTracing, h, hop]

theorem logging_unobserved (lib : Lib) (dsn : DSN) (action : String) (next : Handler)
    (s : GState)
    (h : s.db.Statement.Context = none ∨
      ∃ ctx, s.db.Statement.Context = some ctx ∧ OperationFrom ctx = "") :
    InterceptorLogging lib dsn action next s = next s := by
  rcases h with h | ⟨ctx, h, hop⟩
  · simp [InterceptorLogging, h]
  · simp [InterceptorLogging, h, hop]

theorem metrics_unobserved (dsn : DSN) (action : String) (next : Handler) (s : GState)
    (h : s.db.Statement.Context = none ∨
      ∃ ctx, s.db.Statement.Context = some ctx ∧ OperationFrom ctx = "") :
    InterceptorMetrics dsn action next s = next s := by
  rcases h with h | ⟨ctx, h, hop⟩
  · simp [InterceptorMetrics, h]
  · simp [InterceptorMetrics, h, hop]

/-- C2: when the statement context is nil or carries no operation name, the handler returned by
each of the three interceptors is `next` run once on the same `db` and world: the state it
leaves (the `db` with its `Statement.Error`, and every span, log and metric event) is exactly the
state `next` leaves. -/
theorem C2_unobserved_is_next (lib : Lib) (dsn : DSN) (action : String) (next : Handler)
    (s : GState)
    (h : s.db.Statement.Context = none ∨
      ∃ ctx, s.db.Statement.Context = some ctx ∧ OperationFrom ctx = "") :
    InterceptorTracing dsn action next s = next s ∧
    InterceptorLogging lib dsn action next s = next s ∧
    InterceptorMetrics dsn action next s = next s :=
  ⟨tracing_unobserved dsn action next s h, logging_unobserved lib dsn action next s h,
    metrics_unobserved dsn action next s h⟩

/-- C2, at an example: an untagged query through each interceptor around a failing handler. -/
theorem C2_unobserved_is_next_witness :
    (exStateUntagged.db.Statement.Context = none ∨
      ∃ ctx, exStateUntagged.db.Statement.Context = some ctx ∧ OperationFrom ctx = "") ∧
    (InterceptorTracing exDSN "gorm:query" exBaseFailing exStateUntagged
        = exBaseFailing exStateUntagged ∧
     InterceptorLogging exLib exDSN "gorm:query" exBaseFailing exStateUntagged
        = exBaseFailing exStateUntagged ∧
     InterceptorMetrics exDSN "gorm:query" exBaseFailing exStateUntagged
        = exBaseFailing exStateUntagged) :=
  ⟨Or.inr ⟨.background, rfl, rfl⟩,
    C2_unobserved_is_next exLib exDSN "gorm:query" exBaseFailing exStateUntagged
      (Or.inr ⟨.background, rfl, rfl⟩)⟩

theorem replace_get (ints : List Interceptor) (processor : Processor) (name : String) :
    replace ints processor name name
      = ints.foldl (fun handler interceptor => interceptor name handler) (processor name) := by
  simp [replace, Processor.Replace]

theorem build_ok (lib : Lib) (dsn : DSN) (db : Callbacks) :
    ∃ cb, Build lib (.ok dsn) (.ok db) = .ok cb ∧
      ∀ p ∈ instrumented, p.1 cb p.2 = metricsOutermost lib dsn p.2 (p.1 db p.2) := by
  refine ⟨_, rfl, ?_⟩
  intro p hp
  simp only [instrumented, List.mem_cons, List.mem_singleton, List.not_mem_nil, or_false] at hp
  rcases hp with rfl | rfl | rfl | rfl | rfl <;>
    simp [replace_get, metricsOutermost]

/-- C4, on the code: for the example query handler, the handler `Build` installs under
`gorm:query` from `[tracing, logging, metrics]` is `metrics(logging(tracing(base)))` and not
`tracing(logging(metrics(base)))`: on a query tagged `demo` the installed handler ends the span
before the line is logged and the metrics are updated (its last event is the histogram
observation), where the nesting with tracing outermost ends with the end of the span. -/
theorem C4_build_nests_tracing_innermost :
    ∃ cb, Build exLib (.ok exDSN) (.ok exCallbacks) = .ok cb ∧
      cb.Query "gorm:query" =
        InterceptorMetrics exDSN "gorm:query"
          (InterceptorLogging exLib exDSN "gorm:query"
            (InterceptorTracing exDSN "gorm:query" (exCallbacks.Query "gorm:query"))) ∧
      cb.Query "gorm:query" ≠
        InterceptorTracing exDSN "gorm:query"
          (InterceptorLogging exLib exDSN "gorm:query"
            (InterceptorMetrics exDSN "gorm:query" (exCallbacks.Query "gorm:query"))) ∧
      (cb.Query "gorm:query" exState).world.events.map Event.kind =
        ["spanStart", "setAttributes", "setAttributes", "setAttributes", "setAttributes",
         "setAttributes", "setAttributes", "setAttributes", "setStatus", "spanEnd", "log",
         "counterInc", "observe"] ∧
      (cb.Query "gorm:query" exState).world.events.getLast? =
        some (.observe "db_requests_latency_seconds" ["127.0.0.1:3306", "web_layout", "demo"] 5) ∧
      (InterceptorTracing exDSN "gorm:query"
          (InterceptorLogging exLib exDSN "gorm:query"
            (InterceptorMetrics exDSN "gorm:query" (exCallbacks.Query "gorm:query")))
          exState).world.events.map Event.kind =
        ["spanStart", "setAttributes", "setAttributes", "setAttributes", "setAttributes",
         "setAttributes", "setAttributes", "setAttributes", "counterInc", "observe", "log",
         "setStatus", "spanEnd"] ∧
      (InterceptorTracing exDSN "gorm:query"
          (InterceptorLogging exLib exDSN "gorm:query"
            (InterceptorMetrics exDSN "gorm:query" (exCallbacks.Query "gorm:query")))
          exState).world.events.getLast? = some (.spanEnd ⟨1, 1⟩) := by
  refine ⟨_, rfl, ?_, ?_, by decide, by decide, by decide, by decide⟩
  · simp [replace_get]
  · intro h
    have h2 := congrArg (fun f : Handler => (f exState).world.events.getLast?) h
    revert h2
    decide

/-- What the loop of `replace` yields for each of the five callback names and every base handler
found under it: the handler wrapped in the tracing interceptor first, then in the logging
interceptor, then in the metrics interceptor. -/
theorem build_installs_metrics_outermost (lib : Lib) (dsn : DSN) (db : Callbacks) :
    ∃ cb, Build lib (.ok dsn) (.ok db) = .ok cb ∧
      cb.Create "gorm:create" =
        InterceptorMetrics dsn "gorm:create" (InterceptorLogging lib dsn "gorm:create"
          (InterceptorTracing dsn "gorm:create" (db.Create "gorm:create"))) ∧
      cb.Update "gorm:update" =
        InterceptorMetrics dsn "gorm:update" (InterceptorLogging lib dsn "gorm:update"
          (InterceptorTracing dsn "gorm:update" (db.Update "gorm:update"))) ∧
      cb.Delete "gorm:delete" =
        InterceptorMetrics dsn "gorm:delete" (InterceptorLogging lib dsn "gorm:delete"
          (InterceptorTracing dsn "gorm:delete" (db.Delete "gorm:delete"))) ∧
      cb.Query "gorm:query" =
        InterceptorMetrics dsn "gorm:query" (InterceptorLogging lib dsn "gorm:query"
          (InterceptorTracing dsn "gorm:query" (db.Query "gorm:query"))) ∧
      cb.Raw "gorm:raw" =
        InterceptorMetrics dsn "gorm:raw" (InterceptorLogging lib dsn "gorm:raw"
          (InterceptorTracing dsn "gorm:raw" (db.Raw "gorm:raw"))) := by
  refine ⟨_, rfl, ?_, ?_, ?_, ?_, ?_⟩ <;> simp [replace_get]

/-! ### What each interceptor does around an observed operation -/

theorem tracing_observed (dsn : DSN) (action : String) (next : Handler) (s : GState) (ctx : Ctx)
    (hc : s.db.Statement.Context = some ctx) (hop : OperationFrom ctx ≠ "") :
    InterceptorTracing dsn action next s =
      afterTracing (startedSpan ctx s.world)
        (next { db := s.db, world := spanOpened dsn ctx s.db.Statement.SQL s.world }) := by
  have hw : (Span.live (startedSpan ctx s.world)).SetAttributes "trace_id"
        (.string (TraceIDString (startedSpan ctx s.world)))
        ((Span.live (startedSpan ctx s.world)).SetAttributes "db.operation"
          (.string (OperationFrom ctx))
        ((Span.live (startedSpan ctx s.world)).SetAttributes "db.statement"
          (.string s.db.Statement.SQL)
        ((Span.live (startedSpan ctx s.world)).SetAttributes "db.name" (.string dsn.DbName)
        ((Span.live (startedSpan ctx s.world)).SetAttributes "db.user" (.string dsn.Username)
        ((Span.live (startedSpan ctx s.world)).SetAttributes "db.connection_string"
          (.string dsn.Addr)
        ((Span.live (startedSpan ctx s.world)).SetAttributes "db.system" (.string dsn.Driver)
          (tracerStart dsn.Driver ctx (OperationFrom ctx) s.world).2))))))
      = spanOpened dsn ctx s.db.Statement.SQL s.world := by
    simp [spanOpened, tracerStart, Span.SetAttributes, World.emit, startedSpan, Span.SpanContext]
  have hsc : (tracerStart dsn.Driver ctx (OperationFrom ctx) s.world).1
      = (ContextWithSpan ctx (startedSpan ctx s.world), Span.live (startedSpan ctx s.world)) := by
    simp [tracerStart, startedSpan, Span.SpanContext]
  have hid : SpanContextFromContext (ContextWithSpan ctx (startedSpan ctx s.world))
      = startedSpan ctx s.world := by
    simp [SpanContextFromContext, SpanFromContext, ContextWithSpan, Span.SpanContext]
  simp only [InterceptorTracing, hc, hop, if_false, hsc, hid, hw, afterTracing]
  cases h : (next { db := s.db,
                    world := spanOpened dsn ctx s.db.Statement.SQL s.world }).db.Statement.Error <;>
    simp [spanClosing, Span.SetStatus, Span.RecordError, Span.End, World.emit]

theorem logging_observed (lib : Lib) (dsn : DSN) (action : String) (next : Handler)
    (s : GState) (ctx : Ctx)
    (hc : s.db.Statement.Context = some ctx) (hop : OperationFrom ctx ≠ "") :
    InterceptorLogging lib dsn action next s
      = afterLogging lib dsn ctx s.world.clock (next s) := by
  simp only [InterceptorLogging, hc, hop, if_false, afterLogging, logLine]
  cases h : (next s).db.Statement.Error <;> simp [World.emit]

theorem metrics_observed (dsn : DSN) (action : String) (next : Handler) (s : GState) (ctx : Ctx)
    (hc : s.db.Statement.Context = some ctx) (hop : OperationFrom ctx ≠ "") :
    InterceptorMetrics dsn action next s = afterMetrics dsn ctx s.world.clock (next s) := by
  simp only [InterceptorMetrics, hc, hop, if_false, afterMetrics]
  cases h : (next s).db.Statement.Error <;>
    simp [World.emit, MetricVec.Inc, MetricVec.Observe, requestsTotals, requestLatency,
      MetricVec.fqName, String.intercalate, String.intercalate.go]

theorem chain_observed (lib : Lib) (dsn : DSN) (name : String) (base : Handler) (s : GState)
    (ctx : Ctx) (hc : s.db.Statement.Context = some ctx) (hop : OperationFrom ctx ≠ "") :
    metricsOutermost lib dsn name base s =
      afterMetrics dsn ctx s.world.clock (afterLogging lib dsn ctx s.world.clock
        (afterTracing (startedSpan ctx s.world)
          (base { db := s.db, world := spanOpened dsn ctx s.db.Statement.SQL s.world }))) := by
  rw [metricsOutermost, metrics_observed dsn name _ s ctx hc hop,
    logging_observed lib dsn name _ s ctx hc hop, tracing_observed dsn name base s ctx hc hop]

theorem chain_unobserved (lib : Lib) (dsn : DSN) (name : String) (base : Handler) (s : GState)
    (h : s.db.Statement.Context = none ∨
      ∃ ctx, s.db.Statement.Context = some ctx ∧ OperationFrom ctx = "") :
    metricsOutermost lib dsn name base s = base s := by
  rw [metricsOutermost, metrics_unobserved dsn name _ s h, logging_unobserved lib dsn name _ s h,
    tracing_unobserved dsn name base s h]

theorem chain_factor (lib : Lib) (dsn : DSN) (name : String) (base : Handler) (s : GState) :
    metricsOutermost lib dsn name base s = chainAfter lib dsn s (base (chainBefore dsn s)) := by
  cases hc : s.db.Statement.Context with
  | none =>
    rw [chain_unobserved lib dsn name base s (Or.inl hc)]
    simp [chainAfter, chainBefore, hc]
  | some ctx =>
    by_cases hop : OperationFrom ctx = ""
    · rw [chain_unobserved lib dsn name base s (Or.inr ⟨ctx, hc, hop⟩)]
      simp [chainAfter, chainBefore, hc, hop]
    · rw [chain_observed lib dsn name base s ctx hc hop]
      simp [chainAfter, chainBefore, hc, hop]

theorem chainBefore_db (dsn : DSN) (s : GState) : (chainBefore dsn s).db = s.db := by
  unfold chainBefore
  split
  · rfl
  · split <;> rfl

theorem chainAfter_db (lib : Lib) (dsn : DSN) (s s1 : GState) :
    (chainAfter lib dsn s s1).db = s1.db := by
  unfold chainAfter
  split
  · rfl
  · split <;> rfl

end gormbox

/-! ## redisbox -/

namespace redisbox

theorem trace_before_observed (lib : Lib) (dsn : DSN) (ctx : Ctx) (s : PState Cmd)
    (hop : OperationFrom ctx ≠ "") :
    hookTrace.BeforeProcess lib dsn ctx s =
      ((ContextWithSpan ctx (startedSpan ctx s.world), none),
        { s with world := (spanOpened dsn ctx (.int dsn.DB) (lib.CmdString s.cmd) s.world) }) := by
  simp [hookTrace.BeforeProcess, hop, tracerStart, startedSpan, Span.SpanContext,
    Span.SetAttributes, World.emit, spanOpened]

theorem trace_beforePipeline_observed (lib : Lib) (dsn : DSN) (ctx : Ctx)
    (s : PState (List Cmd)) (hop : OperationFrom ctx ≠ "") :
    hookTrace.BeforeProcessPipeline lib dsn ctx s =
      ((ContextWithSpan ctx (startedSpan ctx s.world), none),
        { s with world := (spanOpened dsn ctx (.string (FormatInt dsn.DB))
            (lib.CmdsString s.cmd).2 s.world) }) := by
  simp [hookTrace.BeforeProcessPipeline, hop, tracerStart, startedSpan, Span.SpanContext,
    Span.SetAttributes, World.emit, spanOpened]

theorem operationFrom_hookContext (ctx : Ctx) (w : World) :
    OperationFrom (hookContext ctx w) = OperationFrom ctx := by
  simp [OperationFrom, hookContext, ContextWithSpan, Ctx.Value]

theorem loggerTime_hookContext (ctx : Ctx) (w : World) :
    timeValue (hookContext ctx w) .loggerTimeKey = some w.clock := by
  simp [timeValue, hookContext, ContextWithSpan, Ctx.Value]

theorem metricTime_hookContext (ctx : Ctx) (w : World) :
    timeValue (hookContext ctx w) .metricTimeKey = some w.clock := by
  simp [timeValue, hookContext, ContextWithSpan, Ctx.Value]

theorem span_hookContext (ctx : Ctx) (w : World) :
    SpanFromContext (hookContext ctx w) = .live (startedSpan ctx w) := by
  simp [SpanFromContext, hookContext, ContextWithSpan, Ctx.Value]

theorem trace_after (ctx : Ctx) (s : PState Cmd) (sc : SpanContext)
    (h : SpanFromContext ctx = .live sc) :
    hookTrace.AfterProcess ctx s =
      (none, { s with world := { s.world with events := s.world.events ++ spanClosing sc s.cmd.err } }) := by
  rcases hs : s.cmd.err with _ | e
  · simp [hookTrace.AfterProcess, h, hs, IsActualError, spanClosing, Span.End, World.emit]
  · by_cases he : e = .redisNil
    · simp [hookTrace.AfterProcess, h, hs, IsActualError, spanClosing, Span.End, World.emit, he]
    · simp [hookTrace.AfterProcess, h, hs, IsActualError, spanClosing, Span.End, World.emit, he,
        Span.RecordError]

theorem logger_after (lib : Lib) (dsn : DSN) (ctx : Ctx) (s : PState Cmd) (st : Int)
    (hop : OperationFrom ctx ≠ "") (ht : timeValue ctx .loggerTimeKey = some st) :
    hookLogger.AfterProcess lib dsn ctx s =
      (none, { s with world := { s.world with events := s.world.events ++
        [logLine ctx (logMessage lib dsn (OperationFrom ctx) (lib.CmdString s.cmd)
          (s.world.clock - st)) s.cmd.err] } }) := by
  simp only [hookLogger.AfterProcess, hop, if_false, ht, logOutcome, logLine]
  split <;> simp [World.emit]

theorem metric_after (dsn : DSN) (ctx : Ctx) (w : World) (st : Int)
    (hop : OperationFrom ctx ≠ "") (ht : timeValue ctx .metricTimeKey = some st) :
    hookMetric.after dsn ctx w =
      { w with events := w.events ++
        [.counterInc requestsTotals.fqName
            [stringsJoin dsn.Addr ",", FormatInt dsn.DB, OperationFrom ctx],
         .observe requestLatency.fqName
            [stringsJoin dsn.Addr ",", FormatInt dsn.DB, OperationFrom ctx] (w.clock - st)] } := by
  simp [hookMetric.after, hop, ht, MetricVec.Inc, MetricVec.Observe, World.emit]

theorem runBefore_observed (lib : Lib) (dsn : DSN) (ctx : Ctx) (s : PState Cmd)
    (hop : OperationFrom ctx ≠ "") :
    runBeforeProcess [newHookTrace lib dsn, newHookLogger lib dsn, newHookMetric dsn] ctx s =
      (([newHookMetric dsn, newHookLogger lib dsn, newHookTrace lib dsn],
        hookContext ctx s.world, none),
       { s with world := (spanOpened dsn ctx (.int dsn.DB) (lib.CmdString s.cmd) s.world) }) := by
  have h1 : OperationFrom (ContextWithSpan ctx (startedSpan ctx s.world)) ≠ "" := by
    simpa [OperationFrom, ContextWithSpan, Ctx.Value] using hop
  have h2 : OperationFrom (Ctx.withValue (ContextWithSpan ctx (startedSpan ctx s.world))
      .loggerTimeKey (.time s.world.clock)) ≠ "" := by
    simpa [OperationFrom, ContextWithSpan, Ctx.Value] using hop
  have hclock : (spanOpened dsn ctx (.int dsn.DB) (lib.CmdString s.cmd) s.world).clock
      = s.world.clock := rfl
  simp only [runBeforeProcess, newHookTrace, newHookLogger, newHookMetric,
    trace_before_observed lib dsn ctx s hop, hookLogger.BeforeProcess, hookMetric.BeforeProcess,
    h1, h2, if_false, List.nil_append, List.cons_append, hclock, hookContext]

theorem runAfter_observed (lib : Lib) (dsn : DSN) (ctx : Ctx) (w0 : World)
    (retErr : Option GoError) (s : PState Cmd) (hop : OperationFrom ctx ≠ "") :
    runAfterProcess [newHookMetric dsn, newHookLogger lib dsn, newHookTrace lib dsn]
        (hookContext ctx w0) retErr s =
      (retErr, { s with world := { s.world with events := (s.world.events ++
          afterEvents lib dsn ctx w0 (lib.CmdString s.cmd) s.cmd.err s.world.clock) } }) := by
  have h3 : OperationFrom (hookContext ctx w0) ≠ "" := by
    rw [operationFrom_hookContext]; exact hop
  simp only [runAfterProcess, newHookTrace, newHookLogger, newHookMetric, hookMetric.AfterProcess,
    metric_after dsn _ _ _ h3 (metricTime_hookContext ctx w0),
    logger_after lib dsn _ _ _ h3 (loggerTime_hookContext ctx w0),
    trace_after _ _ _ (span_hookContext ctx w0)]
  simp [afterEvents, operationFrom_hookContext]

theorem process_observed (lib : Lib) (dsn : DSN)
    (fn : Ctx → PState Cmd → Option GoError × PState Cmd) (ctx : Ctx) (s : PState Cmd)
    (r : Option GoError × PState Cmd)
    (hop : OperationFrom ctx ≠ "")
    (hr : fn (hookContext ctx s.world)
      { s with world := (spanOpened dsn ctx (.int dsn.DB) (lib.CmdString s.cmd) s.world) } = r) :
    process [newHookTrace lib dsn, newHookLogger lib dsn, newHookMetric dsn] fn ctx s =
      (r.1,
       { cmd := r.2.cmd.SetErr r.1
         world := { r.2.world with events := (r.2.world.events ++
           afterEvents lib dsn ctx s.world (lib.CmdString (r.2.cmd.SetErr r.1)) r.1
             r.2.world.clock) } }) := by
  simp only [process, runBefore_observed lib dsn ctx s hop, hr,
    runAfter_observed lib dsn ctx s.world _ _ hop]
  simp [Cmd.SetErr]

theorem runBeforePipeline_observed (lib : Lib) (dsn : DSN) (ctx : Ctx) (s : PState (List Cmd))
    (hop : OperationFrom ctx ≠ "") :
    runBeforeProcessPipeline [newHookTrace lib dsn, newHookLogger lib dsn, newHookMetric dsn]
        ctx s =
      (([newHookMetric dsn, newHookLogger lib dsn, newHookTrace lib dsn],
        hookContext ctx s.world, none),
       { s with world := (spanOpened dsn ctx (.string (FormatInt dsn.DB))
          (lib.CmdsString s.cmd).2 s.world) }) := by
  have h1 : OperationFrom (ContextWithSpan ctx (startedSpan ctx s.world)) ≠ "" := by
    simpa [OperationFrom, ContextWithSpan, Ctx.Value] using hop
  have h2 : OperationFrom (Ctx.withValue (ContextWithSpan ctx (startedSpan ctx s.world))
      .loggerTimeKey (.time s.world.clock)) ≠ "" := by
    simpa [OperationFrom, ContextWithSpan, Ctx.Value] using hop
  have hclock : (spanOpened dsn ctx (.string (FormatInt dsn.DB))
      (lib.CmdsString s.cmd).2 s.world).clock = s.world.clock := rfl
  simp only [runBeforeProcessPipeline, newHookTrace, newHookLogger, newHookMetric,
    trace_beforePipeline_observed lib dsn ctx s hop, hookLogger.BeforeProcessPipeline,
    hookMetric.BeforeProcessPipeline,
    h1, h2, if_false, List.nil_append, List.cons_append, hclock, hookContext]

theorem trace_afterPipeline (ctx : Ctx) (w : World) (sc : SpanContext)
    (cmd0 : Cmd) (rest : List Cmd) (h : SpanFromContext ctx = .live sc) :
    hookTrace.AfterProcessPipeline ctx { cmd := cmd0 :: rest, world := w } =
      some (none, { cmd := cmd0 :: rest
                    world := { w with events := (w.events ++ spanClosing sc cmd0.err) } }) := by
  rcases hs : cmd0.err with _ | e
  · simp [hookTrace.AfterProcessPipeline, h, first, hs, IsActualError, spanClosing, Span.End,
      World.emit]
  · by_cases he : e = .redisNil
    · simp [hookTrace.AfterProcessPipeline, h, first, hs, IsActualError, spanClosing,
        Span.End, World.emit, he]
    · simp [hookTrace.AfterProcessPipeline, h, first, hs, IsActualError, spanClosing,
        Span.End, World.emit, he, Span.RecordError]

theorem logger_afterPipeline (lib : Lib) (dsn : DSN) (ctx : Ctx) (w : World)
    (st : Int) (cmd0 : Cmd) (rest : List Cmd)
    (hop : OperationFrom ctx ≠ "") (ht : timeValue ctx .loggerTimeKey = some st) :
    hookLogger.AfterProcessPipeline lib dsn ctx { cmd := cmd0 :: rest, world := w } =
      some (none, { cmd := cmd0 :: rest
                    world := { w with events := (w.events ++
        [logLine ctx (logMessage lib dsn (OperationFrom ctx) (lib.CmdsString (cmd0 :: rest)).2
          (w.clock - st)) cmd0.err]) } }) := by
  simp only [hookLogger.AfterProcessPipeline, hop, if_false, ht, logOutcome, logLine, first,
    List.head?_cons]
  split <;> simp [World.emit]

theorem runAfterPipeline_observed (lib : Lib) (dsn : DSN) (ctx : Ctx) (w0 : World)
    (retErr : Option GoError) (w : World) (cmd0 : Cmd) (rest : List Cmd)
    (hop : OperationFrom ctx ≠ "") :
    runAfterProcessPipeline [newHookMetric dsn, newHookLogger lib dsn, newHookTrace lib dsn]
        (hookContext ctx w0) retErr { cmd := cmd0 :: rest, world := w } =
      some (retErr, { cmd := cmd0 :: rest
                      world := { w with events := (w.events ++
          afterEvents lib dsn ctx w0 (lib.CmdsString (cmd0 :: rest)).2 cmd0.err w.clock) } }) := by
  have h3 : OperationFrom (hookContext ctx w0) ≠ "" := by
    rw [operationFrom_hookContext]; exact hop
  simp only [runAfterProcessPipeline, newHookTrace, newHookLogger, newHookMetric,
    hookMetric.AfterProcessPipeline,
    metric_after dsn _ _ _ h3 (metricTime_hookContext ctx w0),
    logger_afterPipeline lib dsn _ _ _ cmd0 rest h3 (loggerTime_hookContext ctx w0),
    trace_afterPipeline _ _ _ cmd0 rest (span_hookContext ctx w0)]
  simp [afterEvents, operationFrom_hookContext]

theorem processPipeline_observed (lib : Lib) (dsn : DSN)
    (fn : Ctx → PState (List Cmd) → Option GoError × PState (List Cmd)) (ctx : Ctx)
    (s : PState (List Cmd)) (r : Option GoError × PState (List Cmd))
    (cmd0 : Cmd) (rest : List Cmd)
    (hop : OperationFrom ctx ≠ "")
    (hr : fn (hookContext ctx s.world)
      { s with world := (spanOpened dsn ctx (.string (FormatInt dsn.DB))
          (lib.CmdsString s.cmd).2 s.world) } = r)
    (hc : r.2.cmd = cmd0 :: rest) :
    processPipeline [newHookTrace lib dsn, newHookLogger lib dsn, newHookMetric dsn] fn ctx s =
      some (r.1,
       { cmd := r.2.cmd
         world := { r.2.world with events := (r.2.world.events ++
           afterEvents lib dsn ctx s.world (lib.CmdsString r.2.cmd).2 cmd0.err
             r.2.world.clock) } }) := by
  obtain ⟨err, cmds, w⟩ := r
  simp only at hc
  subst hc
  simp only [processPipeline, runBefore_observed, runBeforePipeline_observed lib dsn ctx s hop, hr]
  cases err with
  | none => simp [runAfterPipeline_observed lib dsn ctx s.world _ _ cmd0 rest hop]
  | some e => simp [runAfterPipeline_observed lib dsn ctx s.world _ _ cmd0 rest hop]

end redisbox

/-! ## Both clients -/

section BothClients

open gormbox redisbox

theorem redis_build_ok (lib : Lib) (x : redisbox.Config) (h : x.Addr ≠ []) :
    redisbox.Build lib x none = some (.ok
      [redisbox.newHookTrace lib ⟨x.Addr, x.Db⟩, redisbox.newHookLogger lib ⟨x.Addr, x.Db⟩,
       redisbox.newHookMetric ⟨x.Addr, x.Db⟩]) := by
  obtain ⟨a, rest, hx⟩ := List.exists_cons_of_ne_nil h
  simp [redisbox.Build, hx]

theorem gorm_logMessage_prefix (lib : Lib) (dsn : gormbox.DSN) (op : String) (db : gormbox.DB)
    (latency : Int) :
    ∃ rest, gormbox.logMessage lib dsn op db latency = "db.operation=" ++ op ++ rest :=
  ⟨"\t" ++ ("db.system=" ++ dsn.Driver) ++ "\t" ++
    ("db.connection_string=" ++ dsn.Addr) ++ "\t" ++
    ("db.user=" ++ dsn.Username) ++ "\t" ++
    ("db.name=" ++ dsn.DbName) ++ "\t" ++
    ("db.statement=" ++ gormbox.detailSQL lib db) ++ "\t" ++
    ("latency=" ++ lib.DurationString latency) ++ "\t",
   by simp only [gormbox.logMessage, String.append_assoc]⟩

theorem redis_logMessage_prefix (lib : Lib) (dsn : redisbox.DSN) (op statement : String)
    (latency : Int) :
    ∃ rest, redisbox.logMessage lib dsn op statement latency = "db.operation=" ++ op ++ rest :=
  ⟨"\t" ++ ("db.connection_string=" ++ stringsJoin dsn.Addr ",") ++ "\t" ++
    ("db.name=" ++ FormatInt dsn.DB) ++ "\t" ++
    ("db.statement=" ++ statement) ++ "\t" ++
    ("latency=" ++ lib.DurationString latency) ++ "\t",
   by simp only [redisbox.logMessage, String.append_assoc]⟩

theorem gorm_observed_views (lib : Lib) (dsn : gormbox.DSN) (name : String) (base : Handler)
    (s : GState) (ctx : Ctx) (hc : s.db.Statement.Context = some ctx)
    (hop : gormbox.OperationFrom ctx ≠ "") (hb : Silent base) :
    spansStarted (metricsOutermost lib dsn name base s).world.events
      = spansStarted s.world.events ++ [gormbox.OperationFrom ctx] ∧
    (∃ level rest fields, logLines (metricsOutermost lib dsn name base s).world.events
      = logLines s.world.events ++
          [(level, "db.operation=" ++ gormbox.OperationFrom ctx ++ rest, fields)]) ∧
    counterValue gormbox.requestsTotals.fqName [dsn.Addr, dsn.DbName, gormbox.OperationFrom ctx]
        (metricsOutermost lib dsn name base s).world.events
      = counterValue gormbox.requestsTotals.fqName
          [dsn.Addr, dsn.DbName, gormbox.OperationFrom ctx] s.world.events + 1 := by
  rw [chain_observed lib dsn name base s ctx hc hop]
  generalize hs1 : base { db := s.db, world := spanOpened dsn ctx s.db.Statement.SQL s.world } = s1
  have he : s1.world.events = (spanOpened dsn ctx s.db.Statement.SQL s.world).events := by
    rw [← hs1]; exact hb _
  obtain ⟨rest, hrest⟩ := gorm_logMessage_prefix lib dsn (gormbox.OperationFrom ctx) s1.db
      (s1.world.clock - s.world.clock)
  simp only [afterMetrics, afterLogging, afterTracing, he, gormbox.spanOpened, gormbox.logLine, hrest]
  cases s1.db.Statement.Error with
  | none =>
    refine ⟨?_, ⟨.info, rest, [("trace_id", TraceIDString (SpanContextFromContext ctx)),
      ("span_id", SpanIDString (SpanContextFromContext ctx))], ?_⟩, ?_⟩
    · simp [spansStarted_append, gormbox.spanClosing, spansStarted]
    · simp [logLines_append, gormbox.spanClosing, logLines]
    · simp [counterValue_append, gormbox.spanClosing, counterValue]
  | some err =>
    refine ⟨?_, ⟨.error, rest, [("trace_id", TraceIDString (SpanContextFromContext ctx)),
      ("span_id", SpanIDString (SpanContextFromContext ctx)), ("exception_msg", err.Error),
      ("exception_type", "gorm")], ?_⟩, ?_⟩
    · simp [spansStarted_append, gormbox.spanClosing, spansStarted]
    · simp [logLines_append, gormbox.spanClosing, logLines]
    · simp [counterValue_append, gormbox.spanClosing, counterValue]
theorem redis_spanClosing_views (sc : SpanContext) (err : Option GoError) :
    spansStarted (redisbox.spanClosing sc err) = [] ∧
    logLines (redisbox.spanClosing sc err) = [] ∧
    (∀ metric labels, counterValue metric labels (redisbox.spanClosing sc err) = 0) ∧
    (∀ metric labels, observations metric labels (redisbox.spanClosing sc err) = []) := by
  unfold redisbox.spanClosing
  split
  · split <;> simp [spansStarted, logLines, counterValue, observations]
  · simp [spansStarted, logLines, counterValue, observations]

theorem redis_logLine_eq (ctx : Ctx) (message : String) (err : Option GoError) :
    ∃ level fields, redisbox.logLine ctx message err = .log level message fields := by
  unfold redisbox.logLine
  split
  · exact ⟨_, _, rfl⟩
  · exact ⟨_, _, rfl⟩

theorem redis_observed_views (lib : Lib) (dsn : redisbox.DSN)
    (fn : Ctx → PState Cmd → Option GoError × PState Cmd) (ctx : Ctx) (s : PState Cmd)
    (hop : redisbox.OperationFrom ctx ≠ "")
    (hf : ∀ c t, (fn c t).2.world.events = t.world.events) :
    spansStarted (process [newHookTrace lib dsn, newHookLogger lib dsn, newHookMetric dsn]
        fn ctx s).2.world.events
      = spansStarted s.world.events ++ [redisbox.OperationFrom ctx] ∧
    (∃ level rest fields,
      logLines (process [newHookTrace lib dsn, newHookLogger lib dsn, newHookMetric dsn]
        fn ctx s).2.world.events
      = logLines s.world.events ++
          [(level, "db.operation=" ++ redisbox.OperationFrom ctx ++ rest, fields)]) ∧
    counterValue redisbox.requestsTotals.fqName
        [stringsJoin dsn.Addr ",", FormatInt dsn.DB, redisbox.OperationFrom ctx]
        (process [newHookTrace lib dsn, newHookLogger lib dsn, newHookMetric dsn]
          fn ctx s).2.world.events
      = counterValue redisbox.requestsTotals.fqName
          [stringsJoin dsn.Addr ",", FormatInt dsn.DB, redisbox.OperationFrom ctx]
          s.world.events + 1 := by
  rw [process_observed lib dsn fn ctx s _ hop rfl]
  have he := hf (hookContext ctx s.world)
    { s with world := (redisbox.spanOpened dsn ctx (.int dsn.DB) (lib.CmdString s.cmd) s.world) }
  generalize fn (hookContext ctx s.world)
    { s with world := (redisbox.spanOpened dsn ctx (.int dsn.DB) (lib.CmdString s.cmd) s.world) }
    = r at he ⊢
  obtain ⟨rest, hrest⟩ := redis_logMessage_prefix lib dsn (redisbox.OperationFrom ctx)
    (lib.CmdString (r.2.cmd.SetErr r.1)) (r.2.world.clock - s.world.clock)
  obtain ⟨level, fields, hline⟩ := redis_logLine_eq (hookContext ctx s.world)
    ("db.operation=" ++ redisbox.OperationFrom ctx ++ rest) r.1
  obtain ⟨hc1, hc2, hc3, -⟩ := redis_spanClosing_views (startedSpan ctx s.world) r.1
  simp only [he, redisbox.spanOpened, afterEvents, hrest, hline]
  refine ⟨?_, ⟨level, rest, fields, ?_⟩, ?_⟩
  · simp [spansStarted_append, spansStarted, hc1]
  · simp [logLines_append, logLines, hc2]
  · simp [counterValue_append, counterValue, hc3]

theorem gorm_spanClosing_views (sc : SpanContext) (err : Option GoError) :
    endCount sc (gormbox.spanClosing sc err) = 1 ∧
    (∀ e, err = some e → errorsRecorded sc (gormbox.spanClosing sc err) = [e] ∧
      statusesSet sc (gormbox.spanClosing sc err) = [(.Error, e.Error)]) ∧
    (err = none → errorsRecorded sc (gormbox.spanClosing sc err) = [] ∧
      statusesSet sc (gormbox.spanClosing sc err) = [(.Ok, "OK")]) := by
  cases err with
  | none => simp [gormbox.spanClosing, endCount, errorsRecorded, statusesSet]
  | some e => simp [gormbox.spanClosing, endCount, errorsRecorded, statusesSet]

theorem redis_afterEvents_span (lib : Lib) (dsn : redisbox.DSN) (ctx : Ctx) (w0 : World)
    (statement : String) (err : Option GoError) (now : Int) (sc : SpanContext) :
    endCount sc (redisbox.afterEvents lib dsn ctx w0 statement err now)
      = endCount sc (redisbox.spanClosing (startedSpan ctx w0) err) ∧
    errorsRecorded sc (redisbox.afterEvents lib dsn ctx w0 statement err now)
      = errorsRecorded sc (redisbox.spanClosing (startedSpan ctx w0) err) ∧
    statusesSet sc (redisbox.afterEvents lib dsn ctx w0 statement err now)
      = statusesSet sc (redisbox.spanClosing (startedSpan ctx w0) err) := by
  obtain ⟨level, fields, hline⟩ := redis_logLine_eq (redisbox.hookContext ctx w0)
    (redisbox.logMessage lib dsn (redisbox.OperationFrom ctx) statement (now - w0.clock)) err
  simp [redisbox.afterEvents, hline, endCount, errorsRecorded, statusesSet]

theorem redis_spanClosing_span (sc : SpanContext) (err : Option GoError) :
    endCount sc (redisbox.spanClosing sc err) = 1 ∧
    statusesSet sc (redisbox.spanClosing sc err) = [] ∧
    (∀ e, err = some e → e ≠ .redisNil → errorsRecorded sc (redisbox.spanClosing sc err) = [e]) ∧
    (err = none ∨ err = some .redisNil → errorsRecorded sc (redisbox.spanClosing sc err) = []) := by
  cases err with
  | none => simp [redisbox.spanClosing, endCount, errorsRecorded, statusesSet]
  | some e =>
    by_cases he : e = .redisNil
    · simp [redisbox.spanClosing, endCount, errorsRecorded, statusesSet, he]
    · simp [redisbox.spanClosing, endCount, errorsRecorded, statusesSet, he]

theorem redis_spanClosing_filter (sc : SpanContext) (err : Option GoError) :
    (redisbox.spanClosing sc err).filter Event.isMetricEvent = [] := by
  unfold redisbox.spanClosing
  split
  · split <;> simp [Event.isMetricEvent]
  · simp [Event.isMetricEvent]

theorem redis_logLine_cases (ctx : Ctx) (message : String) (err : Option GoError) :
    (∀ e, err = some e → e ≠ .redisNil →
      redisbox.logLine ctx message err = .log .error message
        [("trace_id", TraceIDString (SpanContextFromContext ctx)),
         ("span_id", SpanIDString (SpanContextFromContext ctx)),
         ("exception_msg", e.Error), ("exception_type", "redis")]) ∧
    (err = none ∨ err = some .redisNil →
      redisbox.logLine ctx message err = .log .info message
        [("trace_id", TraceIDString (SpanContextFromContext ctx)),
         ("span_id", SpanIDString (SpanContextFromContext ctx))]) := by
  constructor
  · intro e he hne
    simp [redisbox.logLine, redisbox.IsActualError, he, hne, redisbox.errMessage]
  · rintro (h | h) <;> simp [redisbox.logLine, redisbox.IsActualError, h]

theorem redis_afterEvents_views (lib : Lib) (dsn : redisbox.DSN) (ctx : Ctx) (w0 : World)
    (statement : String) (err : Option GoError) (now : Int) :
    spansStarted (redisbox.afterEvents lib dsn ctx w0 statement err now) = [] ∧
    (∃ level fields,
      redisbox.logLine (redisbox.hookContext ctx w0)
        (redisbox.logMessage lib dsn (redisbox.OperationFrom ctx) statement (now - w0.clock)) err
        = .log level
          (redisbox.logMessage lib dsn (redisbox.OperationFrom ctx) statement (now - w0.clock))
          fields ∧
      logLines (redisbox.afterEvents lib dsn ctx w0 statement err now)
        = [(level,
            redisbox.logMessage lib dsn (redisbox.OperationFrom ctx) statement (now - w0.clock),
            fields)]) ∧
    (redisbox.afterEvents lib dsn ctx w0 statement err now).filter Event.isMetricEvent
      = [.counterInc redisbox.requestsTotals.fqName
            [stringsJoin dsn.Addr ",", FormatInt dsn.DB, redisbox.OperationFrom ctx],
         .observe redisbox.requestLatency.fqName
            [stringsJoin dsn.Addr ",", FormatInt dsn.DB, redisbox.OperationFrom ctx]
            (now - w0.clock)] := by
  obtain ⟨level, fields, hline⟩ := redis_logLine_eq (redisbox.hookContext ctx w0)
    (redisbox.logMessage lib dsn (redisbox.OperationFrom ctx) statement (now - w0.clock)) err
  obtain ⟨hc1, hc2, -, -⟩ := redis_spanClosing_views (startedSpan ctx w0) err
  refine ⟨?_, ⟨level, fields, hline, ?_⟩, ?_⟩
  · simp [redisbox.afterEvents, hline, spansStarted, hc1]
  · simp [redisbox.afterEvents, hline, logLines, hc2]
  · simp [redisbox.afterEvents, hline, Event.isMetricEvent, redis_spanClosing_filter]

/-- C3: for a non-empty operation name `op` and a context tagged with it, one operation through
the chain `Build` installs (relational client: the handler installed under any of the five
callbacks, around a base handler that itself emits no telemetry; key-value client: one command
dispatched through the hooks `Build` registered, around an execution that emits no telemetry)
starts exactly one span, named `op`, emits exactly one log line, whose message is
`db.operation=` followed by `op` and the rest of the line, and adds exactly 1 to the counter with
label values `(instance, db, op)`. -/
theorem C3_observed_operation (lib : Lib) (dsn : gormbox.DSN) (db : Callbacks)
    (x : Config) (ctx : Ctx) (op : String) (hop : op ≠ "") :
    (∀ p ∈ instrumented, ∀ s : GState,
      s.db.Statement.Context = some (gormbox.WithOperation ctx op) → Silent (p.1 db p.2) →
      ∃ cb, gormbox.Build lib (.ok dsn) (.ok db) = .ok cb ∧
        spansStarted (p.1 cb p.2 s).world.events = spansStarted s.world.events ++ [op] ∧
        (∃ level rest fields, logLines (p.1 cb p.2 s).world.events
          = logLines s.world.events ++ [(level, "db.operation=" ++ op ++ rest, fields)]) ∧
        counterValue gormbox.requestsTotals.fqName [dsn.Addr, dsn.DbName, op]
            (p.1 cb p.2 s).world.events
          = counterValue gormbox.requestsTotals.fqName [dsn.Addr, dsn.DbName, op]
              s.world.events + 1) ∧
    (∀ (fn : Ctx → PState Cmd → Option GoError × PState Cmd) (s : PState Cmd),
      x.Addr ≠ [] → (∀ c t, (fn c t).2.world.events = t.world.events) →
      ∃ hooks, redisbox.Build lib x none = some (.ok hooks) ∧
        spansStarted (process hooks fn (redisbox.WithOperation ctx op) s).2.world.events
          = spansStarted s.world.events ++ [op] ∧
        (∃ level rest fields,
          logLines (process hooks fn (redisbox.WithOperation ctx op) s).2.world.events
          = logLines s.world.events ++ [(level, "db.operation=" ++ op ++ rest, fields)]) ∧
        counterValue redisbox.requestsTotals.fqName [stringsJoin x.Addr ",", FormatInt x.Db, op]
            (process hooks fn (redisbox.WithOperation ctx op) s).2.world.events
          = counterValue redisbox.requestsTotals.fqName
              [stringsJoin x.Addr ",", FormatInt x.Db, op] s.world.events + 1) := by
  constructor
  · intro p hp s hc hb
    obtain ⟨cb, hcb, h⟩ := build_ok lib dsn db
    have hop1 : gormbox.OperationFrom (gormbox.WithOperation ctx op) = op := by
      simp [gormbox.OperationFrom, gormbox.WithOperation]
    have hv := gorm_observed_views lib dsn p.2 (p.1 db p.2) s _ hc (by rw [hop1]; exact hop) hb
    rw [hop1, ← h p hp] at hv
    exact ⟨cb, hcb, hv⟩
  · intro fn s hx hf
    have hop1 : redisbox.OperationFrom (redisbox.WithOperation ctx op) = op := by
      simp [redisbox.OperationFrom, redisbox.WithOperation]
    have hv := redis_observed_views lib ⟨x.Addr, x.Db⟩ fn (redisbox.WithOperation ctx op) s
      (by rw [hop1]; exact hop) hf
    rw [hop1] at hv
    exact ⟨_, redis_build_ok lib x hx, hv⟩

/-- C3, at an example: a query and a `SET`, both tagged `demo`. -/
theorem C3_observed_operation_witness :
    "demo" ≠ "" ∧
    exState.db.Statement.Context = some (gormbox.WithOperation .background "demo") ∧
    gormbox.Silent (exCallbacks.Query "gorm:query") ∧
    exConfig.Addr ≠ [] ∧
    (∀ c t, (exFn c t).2.world.events = t.world.events) ∧
    (∃ cb, gormbox.Build exLib (.ok exDSN) (.ok exCallbacks) = .ok cb ∧
      spansStarted (cb.Query "gorm:query" exState).world.events
        = spansStarted exState.world.events ++ ["demo"] ∧
      (∃ level rest fields, logLines (cb.Query "gorm:query" exState).world.events
        = logLines exState.world.events ++ [(level, "db.operation=" ++ "demo" ++ rest, fields)]) ∧
      counterValue gormbox.requestsTotals.fqName [exDSN.Addr, exDSN.DbName, "demo"]
          (cb.Query "gorm:query" exState).world.events
        = counterValue gormbox.requestsTotals.fqName [exDSN.Addr, exDSN.DbName, "demo"]
            exState.world.events + 1) ∧
    (∃ hooks, redisbox.Build exLib exConfig none = some (.ok hooks) ∧
      spansStarted (redisbox.process hooks exFn (redisbox.WithOperation .background "demo")
          (exPState exWorld)).2.world.events
        = spansStarted (exPState exWorld).world.events ++ ["demo"] ∧
      (∃ level rest fields,
        logLines (redisbox.process hooks exFn (redisbox.WithOperation .background "demo")
          (exPState exWorld)).2.world.events
        = logLines (exPState exWorld).world.events
            ++ [(level, "db.operation=" ++ "demo" ++ rest, fields)]) ∧
      counterValue redisbox.requestsTotals.fqName
          [stringsJoin exConfig.Addr ",", FormatInt exConfig.Db, "demo"]
          (redisbox.process hooks exFn (redisbox.WithOperation .background "demo")
            (exPState exWorld)).2.world.events
        = counterValue redisbox.requestsTotals.fqName
            [stringsJoin exConfig.Addr ",", FormatInt exConfig.Db, "demo"]
            (exPState exWorld).world.events + 1) :=
  ⟨by decide, rfl, fun _ => rfl, by decide, fun _ _ => rfl,
    (C3_observed_operation exLib exDSN exCallbacks exConfig .background "demo" (by decide)).1
      (gormbox.Callbacks.Query, "gorm:query") (by simp [gormbox.instrumented]) exState rfl
      (fun _ => rfl),
    (C3_observed_operation exLib exDSN exCallbacks exConfig .background "demo" (by decide)).2
      exFn (exPState exWorld) (by decide) (fun _ _ => rfl)⟩

/-- C5: observers never change the outcome of the wrapped operation. Relational client: there
are a state transformer `pre` (what the chain does before the base handler) and a transformer
`post` (what it does after), neither touching the `db`, such that for each of the five
instrumented callbacks and every base handler the installed handler is `post` after one run of
the base handler on the state `pre` leaves; so the base handler runs exactly once, on the same
`db`, and `db.Statement.Error` is the value it set. Key-value client: every `Before` and `After`
method of the three hooks returns a nil error and leaves the command (each command of the batch)
as it was; for `AfterProcessPipeline` this is said of the non-empty batches the client hands to
hooks (`cmds[0]` is read there). -/
theorem C5_observers_keep_outcome (lib : Lib) (dsn : gormbox.DSN) (rdsn : redisbox.DSN) :
    (∃ (pre : GState → GState) (post : GState → GState → GState),
      (∀ s, (pre s).db = s.db) ∧ (∀ s s1, (post s s1).db = s1.db) ∧
      ∀ (db : Callbacks) (p : (Callbacks → Processor) × String), p ∈ instrumented →
        ∃ cb, gormbox.Build lib (.ok dsn) (.ok db) = .ok cb ∧
          ∀ s, p.1 cb p.2 s = post s (p.1 db p.2 (pre s)) ∧
            (p.1 cb p.2 s).db.Statement.Error = (p.1 db p.2 (pre s)).db.Statement.Error) ∧
    (∀ hook ∈ [newHookTrace lib rdsn, newHookLogger lib rdsn, newHookMetric rdsn],
      ∀ ctx : Ctx,
        (∀ s : PState Cmd,
          (hook.BeforeProcess ctx s).1.2 = none ∧ (hook.BeforeProcess ctx s).2.cmd = s.cmd ∧
          (hook.AfterProcess ctx s).1 = none ∧ (hook.AfterProcess ctx s).2.cmd = s.cmd) ∧
        (∀ s : PState (List Cmd),
          (hook.BeforeProcessPipeline ctx s).1.2 = none ∧
          (hook.BeforeProcessPipeline ctx s).2.cmd = s.cmd ∧
          (s.cmd ≠ [] →
            ∃ s1, hook.AfterProcessPipeline ctx s = some (none, s1) ∧ s1.cmd = s.cmd))) := by
  refine ⟨⟨chainBefore dsn, chainAfter lib dsn, chainBefore_db dsn, chainAfter_db lib dsn, ?_⟩, ?_⟩
  · intro db p hp
    obtain ⟨cb, hcb, h⟩ := build_ok lib dsn db
    refine ⟨cb, hcb, fun s => ?_⟩
    have hs : p.1 cb p.2 s = chainAfter lib dsn s (p.1 db p.2 (chainBefore dsn s)) := by
      rw [h p hp, chain_factor]
    exact ⟨hs, by rw [hs, chainAfter_db]⟩
  · intro hook hh ctx
    simp only [List.mem_cons, List.mem_singleton, List.not_mem_nil, or_false] at hh
    rcases hh with rfl | rfl | rfl
    · refine ⟨fun s => ⟨?_, ?_, rfl, rfl⟩, fun s => ⟨?_, ?_, fun hne => ?_⟩⟩
      · simp only [newHookTrace, hookTrace.BeforeProcess]; split <;> rfl
      · simp only [newHookTrace, hookTrace.BeforeProcess]; split <;> rfl
      · simp only [newHookTrace, hookTrace.BeforeProcessPipeline]; split <;> rfl
      · simp only [newHookTrace, hookTrace.BeforeProcessPipeline]; split <;> rfl
      · obtain ⟨c0, rest, hc⟩ := List.exists_cons_of_ne_nil hne
        simp [newHookTrace, hookTrace.AfterProcessPipeline, first, hc]
    · refine ⟨fun s => ⟨?_, ?_, ?_, ?_⟩, fun s => ⟨?_, ?_, fun hne => ?_⟩⟩
      · simp only [newHookLogger, hookLogger.BeforeProcess]; split <;> rfl
      · simp only [newHookLogger, hookLogger.BeforeProcess]; split <;> rfl
      · simp only [newHookLogger, hookLogger.AfterProcess]; split
        · rfl
        · split <;> rfl
      · simp only [newHookLogger, hookLogger.AfterProcess]; split
        · rfl
        · split <;> rfl
      · simp only [newHookLogger, hookLogger.BeforeProcessPipeline]; split <;> rfl
      · simp only [newHookLogger, hookLogger.BeforeProcessPipeline]; split <;> rfl
      · obtain ⟨c0, rest, hc⟩ := List.exists_cons_of_ne_nil hne
        simp only [newHookLogger, hookLogger.AfterProcessPipeline, first, hc, List.head?_cons]
        split
        · exact ⟨_, rfl, hc⟩
        · split
          · exact ⟨_, rfl, hc⟩
          · exact ⟨_, rfl, rfl⟩
    · refine ⟨fun s => ⟨?_, ?_, rfl, rfl⟩, fun s => ⟨?_, ?_, fun _ => ⟨_, rfl, rfl⟩⟩⟩
      · simp only [newHookMetric, hookMetric.BeforeProcess]; split <;> rfl
      · simp only [newHookMetric, hookMetric.BeforeProcess]; split <;> rfl
      · simp only [newHookMetric, hookMetric.BeforeProcessPipeline]; split <;> rfl
      · simp only [newHookMetric, hookMetric.BeforeProcessPipeline]; split <;> rfl

/-- C5, at an example: `hookTrace.AfterProcessPipeline` on the example batch. -/
theorem C5_observers_keep_outcome_witness :
    exBatch ≠ [] ∧
    ∃ s1, (redisbox.newHookTrace exLib exRDSN).AfterProcessPipeline .background
        { cmd := exBatch, world := exWorld } = some (none, s1) ∧ s1.cmd = exBatch :=
  ⟨by decide,
    (((C5_observers_keep_outcome exLib exDSN exRDSN).2 (redisbox.newHookTrace exLib exRDSN)
      (List.mem_cons_self _ _) .background).2 { cmd := exBatch, world := exWorld }).2.2
      (by decide)⟩

/-- C6, on the code: a call with no operation name made under a caller's active span. The
`Before` methods of `hookTrace` start nothing and return the context as it is, yet
`AfterProcess` and `AfterProcessPipeline` take the span found in the context, which is the
caller's, and end it (after recording the command's error on it when there is one); the same
happens through the dispatcher with the three registered hooks. -/
theorem C6_unobserved_call_ends_callers_span :
    redisbox.OperationFrom exCallerCtx = "" ∧
    SpanFromContext exCallerCtx = .live ⟨7, 9⟩ ∧
    hookTrace.BeforeProcess exLib exRDSN exCallerCtx (exPState exWorld)
      = ((exCallerCtx, none), exPState exWorld) ∧
    (hookTrace.AfterProcess exCallerCtx (exPState exWorld)).2.world.events
      = [.spanEnd ⟨7, 9⟩] ∧
    (hookTrace.AfterProcess exCallerCtx { cmd := exCmdFailed, world := exWorld }).2.world.events
      = [.recordError ⟨7, 9⟩ (.other "ERR value is not an integer"), .spanEnd ⟨7, 9⟩] ∧
    (process [newHookTrace exLib exRDSN, newHookLogger exLib exRDSN, newHookMetric exRDSN]
        exFn exCallerCtx (exPState exWorld)).2.world.events = [.spanEnd ⟨7, 9⟩] ∧
    hookTrace.BeforeProcessPipeline exLib exRDSN exCallerCtx { cmd := exBatch, world := exWorld }
      = ((exCallerCtx, none), { cmd := exBatch, world := exWorld }) ∧
    (hookTrace.AfterProcessPipeline exCallerCtx { cmd := exBatch, world := exWorld }).map
        (fun r => r.2.world.events) = some [.spanEnd ⟨7, 9⟩] := by
  decide

/-- C7, on the code: for a command or a batch tagged `demo`, `hookTrace` starts the span, sets
five attributes and ends it exactly once, and never sets a status: neither ok when the command
succeeds nor error when it fails, where only the error is recorded. The relational sibling sets
the status in both cases. -/
theorem C7_redis_span_status_never_set :
    (hookTrace.AfterProcess
        (hookTrace.BeforeProcess exLib exRDSN (redisbox.WithOperation .background "demo")
          (exPState exWorld)).1.1
        (hookTrace.BeforeProcess exLib exRDSN (redisbox.WithOperation .background "demo")
          (exPState exWorld)).2).2.world.events
      = [.spanStart "redis" ⟨1, 1⟩ "demo" ⟨0, 0⟩,
         .setAttributes ⟨1, 1⟩ "db.system" (.string "redis"),
         .setAttributes ⟨1, 1⟩ "db.connection_string" (.stringSlice ["localhost:6379"]),
         .setAttributes ⟨1, 1⟩ "db.name" (.int 1),
         .setAttributes ⟨1, 1⟩ "db.statement" (.string "set k v"),
         .setAttributes ⟨1, 1⟩ "db.operation" (.string "demo"),
         .spanEnd ⟨1, 1⟩] ∧
    statusesSet ⟨1, 1⟩
      (process [newHookTrace exLib exRDSN, newHookLogger exLib exRDSN, newHookMetric exRDSN]
        exFn (redisbox.WithOperation .background "demo") (exPState exWorld)).2.world.events
      = [] ∧
    errorsRecorded ⟨1, 1⟩
      (process [newHookTrace exLib exRDSN, newHookLogger exLib exRDSN, newHookMetric exRDSN]
        exFn (redisbox.WithOperation .background "demo")
        { cmd := exCmdFailed, world := exWorld }).2.world.events
      = [.other "ERR value is not an integer"] ∧
    statusesSet ⟨1, 1⟩
      (process [newHookTrace exLib exRDSN, newHookLogger exLib exRDSN, newHookMetric exRDSN]
        exFn (redisbox.WithOperation .background "demo")
        { cmd := exCmdFailed, world := exWorld }).2.world.events
      = [] ∧
    endCount ⟨1, 1⟩
      (process [newHookTrace exLib exRDSN, newHookLogger exLib exRDSN, newHookMetric exRDSN]
        exFn (redisbox.WithOperation .background "demo")
        { cmd := exCmdFailed, world := exWorld }).2.world.events
      = 1 ∧
    (processPipeline [newHookTrace exLib exRDSN, newHookLogger exLib exRDSN,
        newHookMetric exRDSN] exFnBatch (redisbox.WithOperation .background "demo")
        { cmd := [exCmdFailed, exCmd], world := exWorld }).map
        (fun r => (errorsRecorded ⟨1, 1⟩ r.2.world.events, statusesSet ⟨1, 1⟩ r.2.world.events,
          endCount ⟨1, 1⟩ r.2.world.events))
      = some ([.other "ERR value is not an integer"], [], 1) ∧
    (processPipeline [newHookTrace exLib exRDSN, newHookLogger exLib exRDSN,
        newHookMetric exRDSN] exFnBatch (redisbox.WithOperation .background "demo")
        { cmd := [exCmd, exCmdFailed], world := exWorld }).map
        (fun r => (errorsRecorded ⟨1, 1⟩ r.2.world.events, statusesSet ⟨1, 1⟩ r.2.world.events,
          endCount ⟨1, 1⟩ r.2.world.events))
      = some ([], [], 1) ∧
    statusesSet ⟨1, 1⟩ (InterceptorTracing exDSN "gorm:query" exBase exState).world.events
      = [(.Ok, "OK")] ∧
    statusesSet ⟨1, 1⟩
        (InterceptorTracing exDSN "gorm:query" exBaseFailing exState).world.events
      = [(.Error, "boom")] := by
  decide

/-- What the two tracing observers do, on the code, once the wrapped work of an observed
operation has returned; the span is ended exactly once in both. Relational client: when the
handler left an error in `db.Statement.Error`, that error is recorded on the span and the status
is set to error with the error's message; otherwise nothing is recorded and the status is set to
ok. Key-value client, one command: when the command's error is non-nil and not `redis.Nil`, it
is recorded on the span; otherwise nothing is recorded; the hook makes no `SetStatus` call. -/
theorem tracing_span_outcome (lib : Lib) (dsn : gormbox.DSN) (rdsn : redisbox.DSN) (ctx : Ctx) :
    (∀ (action : String) (next : Handler) (s : GState),
      s.db.Statement.Context = some ctx → gormbox.OperationFrom ctx ≠ "" →
      ∃ closing,
        (InterceptorTracing dsn action next s).world.events
          = (next { db := s.db,
                    world := gormbox.spanOpened dsn ctx s.db.Statement.SQL s.world }).world.events
            ++ closing ∧
        endCount (startedSpan ctx s.world) closing = 1 ∧
        (∀ err, (next { db := s.db,
                        world := gormbox.spanOpened dsn ctx s.db.Statement.SQL s.world
                      }).db.Statement.Error = some err →
          errorsRecorded (startedSpan ctx s.world) closing = [err] ∧
          statusesSet (startedSpan ctx s.world) closing = [(.Error, err.Error)]) ∧
        ((next { db := s.db,
                 world := gormbox.spanOpened dsn ctx s.db.Statement.SQL s.world
               }).db.Statement.Error = none →
          errorsRecorded (startedSpan ctx s.world) closing = [] ∧
          statusesSet (startedSpan ctx s.world) closing = [(.Ok, "OK")])) ∧
    (∀ (fn : Ctx → PState Cmd → Option GoError × PState Cmd) (s : PState Cmd)
        (r : Option GoError × PState Cmd),
      redisbox.OperationFrom ctx ≠ "" →
      fn (hookContext ctx s.world)
        { cmd := s.cmd
          world := redisbox.spanOpened rdsn ctx (.int rdsn.DB) (lib.CmdString s.cmd) s.world }
        = r →
      ∃ closing,
        (process [newHookTrace lib rdsn, newHookLogger lib rdsn, newHookMetric rdsn]
            fn ctx s).2.world.events = r.2.world.events ++ closing ∧
        endCount (startedSpan ctx s.world) closing = 1 ∧
        statusesSet (startedSpan ctx s.world) closing = [] ∧
        (∀ e, r.1 = some e → e ≠ .redisNil →
          errorsRecorded (startedSpan ctx s.world) closing = [e]) ∧
        (r.1 = none ∨ r.1 = some .redisNil →
          errorsRecorded (startedSpan ctx s.world) closing = [])) := by
  constructor
  · intro action next s hc hop
    rw [tracing_observed dsn action next s ctx hc hop]
    exact ⟨_, rfl, gorm_spanClosing_views _ _⟩
  · intro fn s r hop hr
    rw [process_observed lib rdsn fn ctx s r hop hr]
    refine ⟨_, rfl, ?_⟩
    obtain ⟨h1, h2, h3⟩ := redis_afterEvents_span lib rdsn ctx s.world
      (lib.CmdString (r.2.cmd.SetErr r.1)) r.1 r.2.world.clock (startedSpan ctx s.world)
    rw [h1, h2, h3]
    exact redis_spanClosing_span _ _

/-- The two tracing observers at an example: a failing query and a successful `SET`, both
tagged `demo`. -/
theorem tracing_span_outcome_example :
    exState.db.Statement.Context = some (gormbox.WithOperation .background "demo") ∧
    gormbox.OperationFrom (gormbox.WithOperation .background "demo") ≠ "" ∧
    redisbox.OperationFrom (redisbox.WithOperation .background "demo") ≠ "" ∧
    (∃ closing,
      (InterceptorTracing exDSN "gorm:query" exBaseFailing exState).world.events
        = (exBaseFailing
            { db := exState.db
              world := gormbox.spanOpened exDSN (gormbox.WithOperation .background "demo")
                exState.db.Statement.SQL exState.world }).world.events ++ closing ∧
      endCount (startedSpan (gormbox.WithOperation .background "demo") exState.world) closing
        = 1) ∧
    (∃ closing,
      (process [newHookTrace exLib exRDSN, newHookLogger exLib exRDSN, newHookMetric exRDSN]
          exFn (redisbox.WithOperation .background "demo") (exPState exWorld)).2.world.events
        = (exFn (hookContext (redisbox.WithOperation .background "demo") exWorld)
            { cmd := exCmd
              world := redisbox.spanOpened exRDSN (redisbox.WithOperation .background "demo")
                (.int exRDSN.DB) (exLib.CmdString exCmd) exWorld }).2.world.events ++ closing ∧
      endCount (startedSpan (redisbox.WithOperation .background "demo") exWorld) closing = 1 ∧
      statusesSet (startedSpan (redisbox.WithOperation .background "demo") exWorld) closing
        = []) :=
  ⟨rfl, by decide, by decide,
    ((tracing_span_outcome exLib exDSN exRDSN (gormbox.WithOperation .background "demo")).1
      "gorm:query" exBaseFailing exState rfl (by decide)).imp fun _ h => ⟨h.1, h.2.1⟩,
    ((tracing_span_outcome exLib exDSN exRDSN (redisbox.WithOperation .background "demo")).2
      exFn (exPState exWorld) _ (by decide) rfl).imp fun _ h => ⟨h.1, h.2.1, h.2.2.1⟩⟩

/-- C8: for every observed operation the logging observer hands exactly one line to the logger
after the wrapped handler. Relational client: at error severity with the fields `trace_id`,
`span_id`, `exception_msg` (the error's message) and `exception_type` = `gorm` when
`db.Statement.Error` is non-nil, at info severity with `trace_id` and `span_id` only when it is
nil. Key-value client, one command through the registered hooks: at error severity with the
four fields, `exception_type` = `redis`, when the command's error is non-nil and not
`redis.Nil`; at info severity with the two fields when it is nil or `redis.Nil`. Key-value
client, one batch through the registered hooks: the same single line, with the batch rendering
as statement, classified in the same way by the error of the first command of the batch. -/
theorem C8_log_severity (lib : Lib) (dsn : gormbox.DSN) (rdsn : redisbox.DSN) (ctx : Ctx) :
    (∀ (action : String) (next : Handler) (s : GState),
      s.db.Statement.Context = some ctx → gormbox.OperationFrom ctx ≠ "" →
      ∃ level message fields,
        (InterceptorLogging lib dsn action next s).world.events
          = (next s).world.events ++ [.log level message fields] ∧
        (∀ err, (next s).db.Statement.Error = some err →
          level = .error ∧
          fields = [("trace_id", TraceIDString (SpanContextFromContext ctx)),
                    ("span_id", SpanIDString (SpanContextFromContext ctx)),
                    ("exception_msg", err.Error), ("exception_type", "gorm")]) ∧
        ((next s).db.Statement.Error = none →
          level = .info ∧
          fields = [("trace_id", TraceIDString (SpanContextFromContext ctx)),
                    ("span_id", SpanIDString (SpanContextFromContext ctx))])) ∧
    (∀ (fn : Ctx → PState Cmd → Option GoError × PState Cmd) (s : PState Cmd)
        (r : Option GoError × PState Cmd),
      redisbox.OperationFrom ctx ≠ "" →
      fn (hookContext ctx s.world)
        { cmd := s.cmd
          world := redisbox.spanOpened rdsn ctx (.int rdsn.DB) (lib.CmdString s.cmd) s.world }
        = r →
      ∃ closing level message fields,
        (process [newHookTrace lib rdsn, newHookLogger lib rdsn, newHookMetric rdsn]
            fn ctx s).2.world.events = r.2.world.events ++ closing ∧
        logLines closing = [(level, message, fields)] ∧
        (∀ e, r.1 = some e → e ≠ .redisNil →
          level = .error ∧
          fields = [("trace_id", TraceIDString (startedSpan ctx s.world)),
                    ("span_id", SpanIDString (startedSpan ctx s.world)),
                    ("exception_msg", e.Error), ("exception_type", "redis")]) ∧
        (r.1 = none ∨ r.1 = some .redisNil →
          level = .info ∧
          fields = [("trace_id", TraceIDString (startedSpan ctx s.world)),
                    ("span_id", SpanIDString (startedSpan ctx s.world))])) ∧
    (∀ (fn : Ctx → PState (List Cmd) → Option GoError × PState (List Cmd))
        (s : PState (List Cmd)) (r : Option GoError × PState (List Cmd))
        (cmd0 : Cmd) (rest : List Cmd),
      redisbox.OperationFrom ctx ≠ "" →
      fn (hookContext ctx s.world)
        { cmd := s.cmd
          world := redisbox.spanOpened rdsn ctx (.string (FormatInt rdsn.DB))
            (lib.CmdsString s.cmd).2 s.world }
        = r →
      r.2.cmd = cmd0 :: rest →
      ∃ final closing level fields,
        processPipeline [newHookTrace lib rdsn, newHookLogger lib rdsn, newHookMetric rdsn]
            fn ctx s = some (r.1, final) ∧
        final.world.events = r.2.world.events ++ closing ∧
        logLines closing
          = [(level,
              redisbox.logMessage lib rdsn (redisbox.OperationFrom ctx)
                (lib.CmdsString r.2.cmd).2 (r.2.world.clock - s.world.clock),
              fields)] ∧
        (∀ e, cmd0.err = some e → e ≠ .redisNil →
          level = .error ∧
          fields = [("trace_id", TraceIDString (startedSpan ctx s.world)),
                    ("span_id", SpanIDString (startedSpan ctx s.world)),
                    ("exception_msg", e.Error), ("exception_type", "redis")]) ∧
        (cmd0.err = none ∨ cmd0.err = some .redisNil →
          level = .info ∧
          fields = [("trace_id", TraceIDString (startedSpan ctx s.world)),
                    ("span_id", SpanIDString (startedSpan ctx s.world))])) := by
  refine ⟨?_, ?_, ?_⟩
  · intro action next s hc hop
    rw [logging_observed lib dsn action next s ctx hc hop]
    cases h : (next s).db.Statement.Error with
    | none =>
      refine ⟨.info, (gormbox.logMessage lib dsn (gormbox.OperationFrom ctx) (next s).db
          ((next s).world.clock - s.world.clock)),
        [("trace_id", TraceIDString (SpanContextFromContext ctx)),
        ("span_id", SpanIDString (SpanContextFromContext ctx))], ?_, by simp, by simp⟩
      simp only [afterLogging, gormbox.logLine, h]
    | some err =>
      refine ⟨.error, (gormbox.logMessage lib dsn (gormbox.OperationFrom ctx) (next s).db
          ((next s).world.clock - s.world.clock)),
        [("trace_id", TraceIDString (SpanContextFromContext ctx)),
        ("span_id", SpanIDString (SpanContextFromContext ctx)),
        ("exception_msg", err.Error), ("exception_type", "gorm")], ?_, by simp, by simp⟩
      simp only [afterLogging, gormbox.logLine, h]
  · intro fn s r hop hr
    rw [process_observed lib rdsn fn ctx s r hop hr]
    obtain ⟨-, ⟨level, fields, hline, hlog⟩, -⟩ := redis_afterEvents_views lib rdsn ctx s.world
      (lib.CmdString (r.2.cmd.SetErr r.1)) r.1 r.2.world.clock
    obtain ⟨hE, hI⟩ := redis_logLine_cases (hookContext ctx s.world)
      (redisbox.logMessage lib rdsn (redisbox.OperationFrom ctx)
        (lib.CmdString (r.2.cmd.SetErr r.1)) (r.2.world.clock - s.world.clock)) r.1
    have hsc : SpanContextFromContext (hookContext ctx s.world) = startedSpan ctx s.world := by
      simp [SpanContextFromContext, span_hookContext, Span.SpanContext]
    rw [hsc] at hE hI
    refine ⟨_, level, _, fields, rfl, hlog, ?_, ?_⟩
    · intro e he hne
      have := hE e he hne
      rw [hline] at this
      injection this with h1 h2 h3
      exact ⟨h1, h3⟩
    · intro h
      have := hI h
      rw [hline] at this
      injection this with h1 h2 h3
      exact ⟨h1, h3⟩
  · intro fn s r cmd0 rest hop hr hc
    rw [processPipeline_observed lib rdsn fn ctx s r cmd0 rest hop hr hc]
    obtain ⟨-, ⟨level, fields, hline, hlog⟩, -⟩ := redis_afterEvents_views lib rdsn ctx s.world
      (lib.CmdsString r.2.cmd).2 cmd0.err r.2.world.clock
    obtain ⟨hE, hI⟩ := redis_logLine_cases (hookContext ctx s.world)
      (redisbox.logMessage lib rdsn (redisbox.OperationFrom ctx)
        (lib.CmdsString r.2.cmd).2 (r.2.world.clock - s.world.clock)) cmd0.err
    have hsc : SpanContextFromContext (hookContext ctx s.world) = startedSpan ctx s.world := by
      simp [SpanContextFromContext, span_hookContext, Span.SpanContext]
    rw [hsc] at hE hI
    refine ⟨_, _, level, fields, rfl, rfl, hlog, ?_, ?_⟩
    · intro e he hne
      have := hE e he hne
      rw [hline] at this
      injection this with h1 h2 h3
      exact ⟨h1, h3⟩
    · intro h
      have := hI h
      rw [hline] at this
      injection this with h1 h2 h3
      exact ⟨h1, h3⟩

/-- C8, at an example: a failing query, a successful `SET` and a batch whose first command
missed, all tagged `demo`. -/
theorem C8_log_severity_witness :
    exState.db.Statement.Context = some (gormbox.WithOperation .background "demo") ∧
    gormbox.OperationFrom (gormbox.WithOperation .background "demo") ≠ "" ∧
    redisbox.OperationFrom (redisbox.WithOperation .background "demo") ≠ "" ∧
    (∃ level message fields,
      (InterceptorLogging exLib exDSN "gorm:query" exBaseFailing exState).world.events
        = (exBaseFailing exState).world.events ++ [.log level message fields]) ∧
    (∃ closing level message fields,
      (process [newHookTrace exLib exRDSN, newHookLogger exLib exRDSN, newHookMetric exRDSN]
          exFn (redisbox.WithOperation .background "demo") (exPState exWorld)).2.world.events
        = (exFn (hookContext (redisbox.WithOperation .background "demo") exWorld)
            { cmd := exCmd
              world := redisbox.spanOpened exRDSN (redisbox.WithOperation .background "demo")
                (.int exRDSN.DB) (exLib.CmdString exCmd) exWorld }).2.world.events ++ closing ∧
      logLines closing = [(level, message, fields)]) ∧
    (∃ final closing level fields,
      processPipeline [newHookTrace exLib exRDSN, newHookLogger exLib exRDSN,
          newHookMetric exRDSN] exFnBatch (redisbox.WithOperation .background "demo")
          { cmd := exBatch, world := exWorld } = some (none, final) ∧
      final.world.events
        = (exFnBatch (hookContext (redisbox.WithOperation .background "demo") exWorld)
            { cmd := exBatch
              world := redisbox.spanOpened exRDSN (redisbox.WithOperation .background "demo")
                (.string (FormatInt exRDSN.DB)) (exLib.CmdsString exBatch).2 exWorld
            }).2.world.events ++ closing ∧
      logLines closing
        = [(level,
            redisbox.logMessage exLib exRDSN
              (redisbox.OperationFrom (redisbox.WithOperation .background "demo"))
              (exLib.CmdsString exBatch).2 (107 - 100),
            fields)]) :=
  ⟨rfl, by decide, by decide,
    ((C8_log_severity exLib exDSN exRDSN (gormbox.WithOperation .background "demo")).1
      "gorm:query" exBaseFailing exState rfl (by decide)).imp
      fun _ => Exists.imp fun _ => Exists.imp fun _ h => h.1,
    ((C8_log_severity exLib exDSN exRDSN (redisbox.WithOperation .background "demo")).2.1
      exFn (exPState exWorld) _ (by decide) rfl).imp
      fun _ => Exists.imp fun _ => Exists.imp fun _ => Exists.imp fun _ h => ⟨h.1, h.2.1⟩,
    ((C8_log_severity exLib exDSN exRDSN (redisbox.WithOperation .background "demo")).2.2
      exFnBatch { cmd := exBatch, world := exWorld } _
      { args := ["get", "k"], err := some .redisNil }
      [{ args := ["incr", "k"], err := some (.other "ERR value is not an integer") }]
      (by decide) rfl rfl).imp
      fun _ => Exists.imp fun _ => Exists.imp fun _ => Exists.imp fun _ h =>
        ⟨h.1, h.2.1, h.2.2.1⟩⟩

/-- C9: for every observed operation the metrics observer makes the same two calls after the
wrapped handler, whatever error the handler left: one increment of the counter and one
observation of the time elapsed since the observer was entered, both with the label values
(address, database name, operation name) for the relational client and (addresses joined by
`,`, decimal db index, operation name) for the key-value client, both for one command and for
one batch dispatched through the registered hooks. And for the key-value client, when the
context holds no start time under `metricTimeKey`, `AfterProcess` and `AfterProcessPipeline`
change nothing. -/
theorem C9_metrics_update (lib : Lib) (dsn : gormbox.DSN) (rdsn : redisbox.DSN) (ctx : Ctx) :
    (∀ (action : String) (next : Handler) (s : GState),
      s.db.Statement.Context = some ctx → gormbox.OperationFrom ctx ≠ "" →
      (InterceptorMetrics dsn action next s).world.events
        = (next s).world.events ++
          [.counterInc gormbox.requestsTotals.fqName
              [dsn.Addr, dsn.DbName, gormbox.OperationFrom ctx],
           .observe gormbox.requestLatency.fqName
              [dsn.Addr, dsn.DbName, gormbox.OperationFrom ctx]
              ((next s).world.clock - s.world.clock)]) ∧
    (∀ (fn : Ctx → PState Cmd → Option GoError × PState Cmd) (s : PState Cmd)
        (r : Option GoError × PState Cmd),
      redisbox.OperationFrom ctx ≠ "" →
      fn (hookContext ctx s.world)
        { cmd := s.cmd
          world := redisbox.spanOpened rdsn ctx (.int rdsn.DB) (lib.CmdString s.cmd) s.world }
        = r →
      ∃ closing,
        (process [newHookTrace lib rdsn, newHookLogger lib rdsn, newHookMetric rdsn]
            fn ctx s).2.world.events = r.2.world.events ++ closing ∧
        closing.filter Event.isMetricEvent
          = [.counterInc redisbox.requestsTotals.fqName
                [stringsJoin rdsn.Addr ",", FormatInt rdsn.DB, redisbox.OperationFrom ctx],
             .observe redisbox.requestLatency.fqName
                [stringsJoin rdsn.Addr ",", FormatInt rdsn.DB, redisbox.OperationFrom ctx]
                (r.2.world.clock - s.world.clock)]) ∧
    (∀ (fn : Ctx → PState (List Cmd) → Option GoError × PState (List Cmd))
        (s : PState (List Cmd)) (r : Option GoError × PState (List Cmd))
        (cmd0 : Cmd) (rest : List Cmd),
      redisbox.OperationFrom ctx ≠ "" →
      fn (hookContext ctx s.world)
        { cmd := s.cmd
          world := redisbox.spanOpened rdsn ctx (.string (FormatInt rdsn.DB))
            (lib.CmdsString s.cmd).2 s.world }
        = r →
      r.2.cmd = cmd0 :: rest →
      ∃ final closing,
        processPipeline [newHookTrace lib rdsn, newHookLogger lib rdsn, newHookMetric rdsn]
            fn ctx s = some (r.1, final) ∧
        final.world.events = r.2.world.events ++ closing ∧
        closing.filter Event.isMetricEvent
          = [.counterInc redisbox.requestsTotals.fqName
                [stringsJoin rdsn.Addr ",", FormatInt rdsn.DB, redisbox.OperationFrom ctx],
             .observe redisbox.requestLatency.fqName
                [stringsJoin rdsn.Addr ",", FormatInt rdsn.DB, redisbox.OperationFrom ctx]
                (r.2.world.clock - s.world.clock)]) ∧
    (∀ (ctx1 : Ctx) (s : PState Cmd) (batch : PState (List Cmd)),
      timeValue ctx1 .metricTimeKey = none →
      hookMetric.AfterProcess rdsn ctx1 s = (none, s) ∧
      hookMetric.AfterProcessPipeline rdsn ctx1 batch = some (none, batch)) := by
  refine ⟨?_, ?_, ?_, ?_⟩
  · intro action next s hc hop
    rw [metrics_observed dsn action next s ctx hc hop]
    rfl
  · intro fn s r hop hr
    rw [process_observed lib rdsn fn ctx s r hop hr]
    exact ⟨_, rfl, (redis_afterEvents_views lib rdsn ctx s.world _ r.1 r.2.world.clock).2.2⟩
  · intro fn s r cmd0 rest hop hr hc
    rw [processPipeline_observed lib rdsn fn ctx s r cmd0 rest hop hr hc]
    exact ⟨_, _, rfl, rfl,
      (redis_afterEvents_views lib rdsn ctx s.world _ cmd0.err r.2.world.clock).2.2⟩
  · intro ctx1 s batch ht
    have h : ∀ w, hookMetric.after rdsn ctx1 w = w := by
      intro w
      simp only [hookMetric.after, ht]
      split <;> rfl
    simp [hookMetric.AfterProcess, hookMetric.AfterProcessPipeline, h]

/-- C9, at an example: a failing query, a successful `SET` and a batch, all tagged `demo`, and
a call whose context holds no start time. -/
theorem C9_metrics_update_witness :
    exState.db.Statement.Context = some (gormbox.WithOperation .background "demo") ∧
    gormbox.OperationFrom (gormbox.WithOperation .background "demo") ≠ "" ∧
    redisbox.OperationFrom (redisbox.WithOperation .background "demo") ≠ "" ∧
    timeValue (redisbox.WithOperation .background "demo") .metricTimeKey = none ∧
    (InterceptorMetrics exDSN "gorm:query" exBaseFailing exState).world.events
      = (exBaseFailing exState).world.events ++
        [.counterInc gormbox.requestsTotals.fqName
            [exDSN.Addr, exDSN.DbName,
              gormbox.OperationFrom (gormbox.WithOperation .background "demo")],
         .observe gormbox.requestLatency.fqName
            [exDSN.Addr, exDSN.DbName,
              gormbox.OperationFrom (gormbox.WithOperation .background "demo")]
            ((exBaseFailing exState).world.clock - exState.world.clock)] ∧
    (∃ closing,
      (process [newHookTrace exLib exRDSN, newHookLogger exLib exRDSN, newHookMetric exRDSN]
          exFn (redisbox.WithOperation .background "demo") (exPState exWorld)).2.world.events
        = (exFn (hookContext (redisbox.WithOperation .background "demo") exWorld)
            { cmd := exCmd
              world := redisbox.spanOpened exRDSN (redisbox.WithOperation .background "demo")
                (.int exRDSN.DB) (exLib.CmdString exCmd) exWorld }).2.world.events ++ closing) ∧
    (∃ final closing,
      processPipeline [newHookTrace exLib exRDSN, newHookLogger exLib exRDSN,
          newHookMetric exRDSN] exFnBatch (redisbox.WithOperation .background "demo")
          { cmd := exBatch, world := exWorld } = some (none, final) ∧
      final.world.events
        = (exFnBatch (hookContext (redisbox.WithOperation .background "demo") exWorld)
            { cmd := exBatch
              world := redisbox.spanOpened exRDSN (redisbox.WithOperation .background "demo")
                (.string (FormatInt exRDSN.DB)) (exLib.CmdsString exBatch).2 exWorld
            }).2.world.events ++ closing ∧
      closing.filter Event.isMetricEvent
        = [.counterInc "redis_requests_totals" ["localhost:6379", "1", "demo"],
           .observe "redis_requests_latency_seconds" ["localhost:6379", "1", "demo"] 7]) ∧
    hookMetric.AfterProcess exRDSN (redisbox.WithOperation .background "demo")
      (exPState exWorld) = (none, exPState exWorld) :=
  ⟨rfl, by decide, by decide, by decide,
    (C9_metrics_update exLib exDSN exRDSN (gormbox.WithOperation .background "demo")).1
      "gorm:query" exBaseFailing exState rfl (by decide),
    ((C9_metrics_update exLib exDSN exRDSN (redisbox.WithOperation .background "demo")).2.1
      exFn (exPState exWorld) _ (by decide) rfl).imp fun _ h => h.1,
    (C9_metrics_update exLib exDSN exRDSN (redisbox.WithOperation .background "demo")).2.2.1
      exFnBatch { cmd := exBatch, world := exWorld } _
      { args := ["get", "k"], err := some .redisNil }
      [{ args := ["incr", "k"], err := some (.other "ERR value is not an integer") }]
      (by decide) rfl rfl,
    ((C9_metrics_update exLib exDSN exRDSN (redisbox.WithOperation .background "demo")).2.2.2
      (redisbox.WithOperation .background "demo") (exPState exWorld)
      { cmd := exBatch, world := exWorld } (by decide)).1⟩

theorem redis_logLine_level (ctx : Ctx) (message : String) (err : Option GoError) :
    ∃ fields, redisbox.logLine ctx message err
      = .log (if redisbox.IsActualError err then .error else .info) message fields := by
  unfold redisbox.logLine
  split
  · exact ⟨_, rfl⟩
  · exact ⟨_, rfl⟩

theorem redis_spanClosing_errors (sc : SpanContext) (err : Option GoError) :
    errorsRecorded sc (redisbox.spanClosing sc err)
      = (match err with
         | some e => if e = .redisNil then [] else [e]
         | none => []) := by
  cases err with
  | none => simp [redisbox.spanClosing, errorsRecorded]
  | some e =>
    by_cases he : e = .redisNil
    · simp [redisbox.spanClosing, errorsRecorded, he]
    · simp [redisbox.spanClosing, errorsRecorded, he]

theorem redis_spanOpened_views (dsn : redisbox.DSN) (ctx : Ctx) (dbName : AttrVal)
    (statement : String) (w : World) (sc : SpanContext) :
    spansStarted (redisbox.spanOpened dsn ctx dbName statement w).events
      = spansStarted w.events ++ [redisbox.OperationFrom ctx] ∧
    logLines (redisbox.spanOpened dsn ctx dbName statement w).events = logLines w.events ∧
    (redisbox.spanOpened dsn ctx dbName statement w).events.filter Event.isMetricEvent
      = w.events.filter Event.isMetricEvent ∧
    errorsRecorded sc (redisbox.spanOpened dsn ctx dbName statement w).events
      = errorsRecorded sc w.events ∧
    endCount sc (redisbox.spanOpened dsn ctx dbName statement w).events
      = endCount sc w.events := by
  simp [redisbox.spanOpened, spansStarted_append, logLines_append, errorsRecorded_append,
    endCount_append, spansStarted, logLines, errorsRecorded, endCount, Event.isMetricEvent]

/-- C10: for a context with a non-empty operation name and a batch whose first command after
execution is `cmd0` (followed by any `rest`), dispatching the batch through the three registered
hooks around an execution that emits no telemetry starts exactly one span (named after the
operation) and ends it once, emits exactly one log line and makes exactly one counter increment
and one histogram observation for the whole batch; the severity of the line and whether an error
is recorded on the span are functions of `cmd0.err` alone. -/
theorem C10_pipeline_batch (lib : Lib) (rdsn : redisbox.DSN) (ctx : Ctx)
    (fn : Ctx → PState (List Cmd) → Option GoError × PState (List Cmd))
    (s : PState (List Cmd)) (r : Option GoError × PState (List Cmd))
    (cmd0 : Cmd) (rest : List Cmd)
    (hop : redisbox.OperationFrom ctx ≠ "")
    (hf : ∀ c t, (fn c t).2.world.events = t.world.events)
    (hr : fn (hookContext ctx s.world)
      { cmd := s.cmd
        world := redisbox.spanOpened rdsn ctx (.string (FormatInt rdsn.DB))
          (lib.CmdsString s.cmd).2 s.world } = r)
    (hc : r.2.cmd = cmd0 :: rest) :
    ∃ final message fields,
      processPipeline [newHookTrace lib rdsn, newHookLogger lib rdsn, newHookMetric rdsn]
        fn ctx s = some (r.1, final) ∧
      final.cmd = r.2.cmd ∧
      spansStarted final.world.events
        = spansStarted s.world.events ++ [redisbox.OperationFrom ctx] ∧
      logLines final.world.events
        = logLines s.world.events ++
          [(if IsActualError cmd0.err then .error else .info, message, fields)] ∧
      final.world.events.filter Event.isMetricEvent
        = s.world.events.filter Event.isMetricEvent ++
          [.counterInc redisbox.requestsTotals.fqName
              [stringsJoin rdsn.Addr ",", FormatInt rdsn.DB, redisbox.OperationFrom ctx],
           .observe redisbox.requestLatency.fqName
              [stringsJoin rdsn.Addr ",", FormatInt rdsn.DB, redisbox.OperationFrom ctx]
              (r.2.world.clock - s.world.clock)] ∧
      errorsRecorded (startedSpan ctx s.world) final.world.events
        = errorsRecorded (startedSpan ctx s.world) s.world.events ++
          (match cmd0.err with
           | some e => if e = .redisNil then [] else [e]
           | none => []) ∧
      endCount (startedSpan ctx s.world) final.world.events
        = endCount (startedSpan ctx s.world) s.world.events + 1 := by
  rw [processPipeline_observed lib rdsn fn ctx s r cmd0 rest hop hr hc]
  have he : r.2.world.events = (redisbox.spanOpened rdsn ctx (.string (FormatInt rdsn.DB))
      (lib.CmdsString s.cmd).2 s.world).events := by
    rw [← hr]; exact hf _ _
  obtain ⟨fields, hline⟩ := redis_logLine_level (hookContext ctx s.world)
    (redisbox.logMessage lib rdsn (redisbox.OperationFrom ctx) (lib.CmdsString r.2.cmd).2
      (r.2.world.clock - s.world.clock)) cmd0.err
  obtain ⟨hv1, ⟨level, fields1, hline1, hlog⟩, hv3⟩ := redis_afterEvents_views lib rdsn ctx
    s.world (lib.CmdsString r.2.cmd).2 cmd0.err r.2.world.clock
  obtain ⟨h1, h2, h3⟩ := redis_afterEvents_span lib rdsn ctx s.world
    (lib.CmdsString r.2.cmd).2 cmd0.err r.2.world.clock (startedSpan ctx s.world)
  rw [hline] at hline1
  injection hline1 with hl1 hl2 hl3
  subst hl1 hl3
  refine ⟨_, redisbox.logMessage lib rdsn (redisbox.OperationFrom ctx)
    (lib.CmdsString r.2.cmd).2 (r.2.world.clock - s.world.clock), fields, rfl, rfl,
    ?_, ?_, ?_, ?_, ?_⟩
  all_goals
    obtain ⟨ho1, ho2, ho3, ho4, ho5⟩ := redis_spanOpened_views rdsn ctx
      (.string (FormatInt rdsn.DB)) (lib.CmdsString s.cmd).2 s.world (startedSpan ctx s.world)
  · simp only [he, spansStarted_append, hv1, ho1, List.append_nil]
  · simp only [he, logLines_append, hlog, ho2]
  · simp only [he, List.filter_append, hv3, ho3]
  · simp only [he, errorsRecorded_append, h2, ho4, redis_spanClosing_errors]
  · simp only [he, endCount_append, h1, ho5,
      (redis_spanClosing_span (startedSpan ctx s.world) cmd0.err).1]

/-- C10, at an example: a batch tagged `demo` whose first command missed (`redis.Nil`) and whose
second command failed is logged at info severity. -/
theorem C10_pipeline_batch_witness :
    redisbox.OperationFrom (redisbox.WithOperation .background "demo") ≠ "" ∧
    (∀ c t, (exFnBatch c t).2.world.events = t.world.events) ∧
    ∃ final message fields,
      processPipeline [newHookTrace exLib exRDSN, newHookLogger exLib exRDSN,
          newHookMetric exRDSN] exFnBatch (redisbox.WithOperation .background "demo")
          { cmd := exBatch, world := exWorld } = some (none, final) ∧
      final.cmd = exBatch ∧
      spansStarted final.world.events = ["demo"] ∧
      logLines final.world.events = [(.info, message, fields)] :=
  ⟨by decide, fun _ _ => rfl,
    (C10_pipeline_batch exLib exRDSN (redisbox.WithOperation .background "demo") exFnBatch
      { cmd := exBatch, world := exWorld } _
      { args := ["get", "k"], err := some .redisNil }
      [{ args := ["incr", "k"], err := some (.other "ERR value is not an integer") }]
      (by decide) (fun _ _ => rfl) rfl rfl).imp
      fun _ => Exists.imp fun _ => Exists.imp fun _ h => ⟨h.1, h.2.1, h.2.2.1, h.2.2.2.1⟩⟩

/-- C11, on the code: a query tagged `demo` through the handler `Build` installs under
`gorm:query`. With no caller span in the context the operation's own span is `⟨1, 1⟩`, yet the
log line carries the all-zero `trace_id` and `span_id`, and it is emitted after the span has been
ended. Issued under the caller's span `⟨7, 9⟩` the own span is `⟨7, 1⟩` and the log line carries
the caller's `span_id` 9, not 1. The identifiers are those of the context the statement had on
entry, because `InterceptorTracing` keeps the context returned by `tracer.Start` to itself; the
same identifiers are logged when the tracing interceptor is put outermost. -/
theorem C11_log_line_ids_not_own_span :
    (∃ cb, gormbox.Build exLib (.ok exDSN) (.ok exCallbacks) = .ok cb ∧
      (cb.Query "gorm:query" exState).world.events =
        [.spanStart "mysql" ⟨1, 1⟩ "demo" ⟨0, 0⟩,
         .setAttributes ⟨1, 1⟩ "db.system" (.string "mysql"),
         .setAttributes ⟨1, 1⟩ "db.connection_string" (.string "127.0.0.1:3306"),
         .setAttributes ⟨1, 1⟩ "db.user" (.string "root"),
         .setAttributes ⟨1, 1⟩ "db.name" (.string "web_layout"),
         .setAttributes ⟨1, 1⟩ "db.statement" (.string "SELECT 1"),
         .setAttributes ⟨1, 1⟩ "db.operation" (.string "demo"),
         .setAttributes ⟨1, 1⟩ "trace_id" (.string "00000000000000000000000000000001"),
         .setStatus ⟨1, 1⟩ .Ok "OK",
         .spanEnd ⟨1, 1⟩,
         .log .info
           ("db.operation=demo\tdb.system=mysql\tdb.connection_string=127.0.0.1:3306\t" ++
            "db.user=root\tdb.name=web_layout\tdb.statement=SELECT 1\tlatency=5ns\t")
           [("trace_id", "00000000000000000000000000000000"), ("span_id", "0000000000000000")],
         .counterInc "db_requests_totals" ["127.0.0.1:3306", "web_layout", "demo"],
         .observe "db_requests_latency_seconds" ["127.0.0.1:3306", "web_layout", "demo"] 5] ∧
      (cb.Query "gorm:query" exStateCaller).world.events.head?
        = some (.spanStart "mysql" ⟨7, 1⟩ "demo" ⟨7, 9⟩) ∧
      (logLines (cb.Query "gorm:query" exStateCaller).world.events).map (fun l => l.2.2)
        = [[("trace_id", "00000000000000000000000000000007"),
            ("span_id", "0000000000000009")]]) ∧
    (logLines (InterceptorTracing exDSN "gorm:query"
        (InterceptorLogging exLib exDSN "gorm:query"
          (InterceptorMetrics exDSN "gorm:query" exBase)) exState).world.events).map
        (fun l => l.2.2)
      = [[("trace_id", "00000000000000000000000000000000"), ("span_id", "0000000000000000")]] ∧
    TraceIDString ⟨1, 1⟩ = "00000000000000000000000000000001" ∧
    SpanIDString ⟨1, 1⟩ = "0000000000000001" ∧
    SpanIDString ⟨7, 1⟩ = "0000000000000001" := by
  refine ⟨⟨_, rfl, ?_, ?_, ?_⟩, ?_, ?_, ?_, ?_⟩ <;> decide

/-- C12, as stated, fails: the counter series is registered as `db_requests_totals` and
`redis_requests_totals` (name `totals` in subsystem `requests`), not as `db_requests_total` and
`redis_requests_total`. -/
theorem C12_counterexample :
    gormbox.registered.map Collector.fqName
      = ["db_requests_totals", "db_requests_latency_seconds"] ∧
    redisbox.registered.map Collector.fqName
      = ["redis_requests_totals", "redis_requests_latency_seconds"] ∧
    gormbox.requestsTotals.fqName ≠ "db" ++ "_requests_total" ∧
    redisbox.requestsTotals.fqName ≠ "redis" ++ "_requests_total" := by
  decide

/-- C12, amended: for each client the metrics observer registers exactly two series, a counter
and a histogram, in the client's namespace (`db`, `redis`) and the subsystem `requests`, named
`totals` and `latency_seconds` (fully qualified: namespace followed by `_requests_totals` and by
`_requests_latency_seconds`), each with exactly three labels in the order instance, database or
index name, operation. -/
theorem C12_registered_series :
    gormbox.registered
      = [.counterVec gormbox.requestsTotals, .histogramVec gormbox.requestLatency] ∧
    redisbox.registered
      = [.counterVec redisbox.requestsTotals, .histogramVec redisbox.requestLatency] ∧
    gormbox.requestsTotals.Namespace = "db" ∧ gormbox.requestLatency.Namespace = "db" ∧
    redisbox.requestsTotals.Namespace = "redis" ∧ redisbox.requestLatency.Namespace = "redis" ∧
    gormbox.registered.map Collector.fqName
      = ["db" ++ "_requests_totals", "db" ++ "_requests_latency_seconds"] ∧
    redisbox.registered.map Collector.fqName
      = ["redis" ++ "_requests_totals", "redis" ++ "_requests_latency_seconds"] ∧
    gormbox.registered.map Collector.labelNames
      = [["db_instance", "db_name", "operation"], ["db_instance", "db_name", "operation"]] ∧
    redisbox.registered.map Collector.labelNames
      = [["redis_instance", "db", "operation"], ["redis_instance", "db", "operation"]] := by
  decide

end BothClients

end Gobox
